import Mathlib

/-!
Verification development for the FEED→Jetshop synchronization engine
(`src/sync_engine.py`, `src/diff_engine.py`, `src/validator.py`,
`src/transformers.py`, `src/mapping_loader.py`).

The Python runtime values flowing through the engine are modelled by the
inductive `Value`; Python `dict`s become insertion-ordered association
lists, Python `Decimal` becomes an exact scaled integer, Python `float`
a rational (the engine never relies on rounding artifacts of binary
floats on the paths verified here), and `datetime`/`date` objects carry
their ISO-8601 rendering.  Fallible code returns `Except`: the
`Except String` channel models exceptions that the Python code does not
catch locally (they would propagate to the caller), while recoverable
`ValidationError`s are a dedicated error type.
-/

namespace FeedJetshop

/-- Model of a Python runtime value as it occurs in the engine's data flow. -/
inductive Value where
  | vNone
  | vBool (b : Bool)
  | vInt (n : Int)
  | vFloat (num : Int) (scale : Nat)
  | vStr (s : String)
  | vDec (num : Int) (scale : Nat)
  | vDate (iso : String)
  | vDatetime (iso : String)
  | vNil
  | vList (xs : List Value)
  | vDict (entries : List (String × Value))

/-- Python dict modelled as an insertion-ordered association list. -/
abbrev Dict := List (String × Value)

/-- `d.get(k)` with the default `None`. -/
def dictGet (d : Dict) (k : String) : Value :=
  match d.lookup k with
  | some v => v
  | none => .vNone

/-- `d.get(k, dflt)`. -/
def dictGetD (d : Dict) (k : String) (dflt : Value) : Value :=
  match d.lookup k with
  | some v => v
  | none => dflt

/-- `d[k] = v`: replace in place if the key exists, else append (Python
dicts keep the first insertion position of a key). -/
def dictInsert (d : Dict) (k : String) (v : Value) : Dict :=
  match d with
  | [] => [(k, v)]
  | (k', v') :: rest =>
    if k' = k then (k', v) :: rest else (k', v') :: dictInsert rest k v

/-- Python truthiness (`bool(value)`). -/
def pyTruthy : Value → Bool
  | .vNone => false
  | .vBool b => b
  | .vInt n => n ≠ 0
  | .vFloat n _ => n ≠ 0
  | .vStr s => s ≠ ""
  | .vDec n _ => n ≠ 0
  | .vDate _ => true
  | .vDatetime _ => true
  | .vNil => true
  | .vList xs => !xs.isEmpty
  | .vDict d => !d.isEmpty

/-- `type(value).__name__` for the error messages of the validator. -/
def pyTypeName : Value → String
  | .vNone => "NoneType"
  | .vBool _ => "bool"
  | .vInt _ => "int"
  | .vFloat _ _ => "float"
  | .vStr _ => "str"
  | .vDec _ _ => "Decimal"
  | .vDate _ => "date"
  | .vDatetime _ => "datetime"
  | .vNil => "NilValueType"
  | .vList _ => "list"
  | .vDict _ => "dict"

/-- Exact scaled decimals `num × 10^(-scale)`. Python `float`s enter the
engine as finite decimal literals (JSON numbers / decimal strings), so
they are modelled exactly the same way as `Decimal`s; none of the
verified paths depend on binary-float rounding. -/
abbrev DecNum := Int × Nat

def pow10 (k : Nat) : Int := ((10 ^ k : Nat) : Int)

/-- Exact numeric equality of two scaled decimals. -/
def decEqB (a b : DecNum) : Bool := a.1 * pow10 b.2 == b.1 * pow10 a.2

/-- Exact numeric strict order of two scaled decimals. -/
def decLtB (a b : DecNum) : Bool := decide (a.1 * pow10 b.2 < b.1 * pow10 a.2)

/-- The numeric interpretation Python's `==` uses across `bool`/`int`/
`float`/`Decimal` (a `bool` is an `int` in Python). `none` for
non-numeric values. -/
def numVal : Value → Option DecNum
  | .vBool b => some (if b then 1 else 0, 0)
  | .vInt n => some (n, 0)
  | .vFloat n s => some (n, s)
  | .vDec n s => some (n, s)
  | _ => none

mutual

/-- Python `==` on the modelled values: numbers compare numerically
across numeric types, strings structurally, lists elementwise and dicts
key-wise (the dicts produced by the engine have unique keys, so the
length check plus one-sided key containment below coincides with
Python's dict equality). Values of unrelated types are unequal. -/
def pyValueEq : Value → Value → Bool
  | a, b =>
    match numVal a, numVal b with
    | some x, some y => decEqB x y
    | _, _ =>
      match a, b with
      | .vNone, .vNone => true
      | .vStr s, .vStr t => s == t
      | .vDate s, .vDate t => s == t
      | .vDatetime s, .vDatetime t => s == t
      | .vNil, .vNil => true
      | .vList xs, .vList ys => pyListEq xs ys
      | .vDict d1, .vDict d2 => d1.length == d2.length && pyDictSub d1 d2
      | _, _ => false

def pyListEq : List Value → List Value → Bool
  | [], [] => true
  | a :: as', b :: bs => pyValueEq a b && pyListEq as' bs
  | _, _ => false

def pyDictSub : List (String × Value) → Dict → Bool
  | [], _ => true
  | (k, v) :: rest, d =>
    (match d.lookup k with
     | some w => pyValueEq v w
     | none => false) && pyDictSub rest d

end

/-- Render the fractional digits of `|n| < 10^scale` zero-padded to
`scale` digits. -/
def padDigits (n : Nat) (scale : Nat) : String :=
  let s := toString n
  (String.mk (List.replicate (scale - s.length) '0')) ++ s

/-- `str(Decimal)`: the scaled integer rendered with `scale` fractional
digits (no exponent form is produced by the engine's decimals). -/
def decToString (num : Int) (scale : Nat) : String :=
  let sign := if num < 0 then "-" else ""
  let m := num.natAbs
  if scale = 0 then sign ++ toString m
  else sign ++ toString (m / 10 ^ scale) ++ "." ++ padDigits (m % 10 ^ scale) scale

/-- Round-half-even division of `n` by `10^k` (the `decimal` module's
default rounding used by `format`), computed on the absolute value (the
rounding is symmetric around zero). -/
def roundHalfEven (n : Int) (k : Nat) : Int :=
  let d : Nat := 10 ^ k
  let m := n.natAbs / d
  let r := n.natAbs % d
  let m2 := if 2 * r < d then m else if 2 * r > d then m + 1 else if m % 2 = 0 then m else m + 1
  if n < 0 then -(m2 : Int) else (m2 : Int)

/-- `f"{dec:.4f}"`: rescale the decimal to 4 fractional digits
(half-even) and render it, keeping the sign of the original value as
Python does (e.g. `-0.00001` formats as `-0.0000`). -/
def formatFixed4 (num : Int) (scale : Nat) : String :=
  let n4 : Int := if scale ≤ 4 then num * 10 ^ (4 - scale) else roundHalfEven num (scale - 4)
  let sign := if num < 0 then "-" else ""
  sign ++ toString (n4.natAbs / 10 ^ 4) ++ "." ++ padDigits (n4.natAbs % 10 ^ 4) 4

/-- Drop trailing zero fractional digits (the canonical form `str(float)`
prints). -/
def decCanon : Int → Nat → Int × Nat
  | n, 0 => (n, 0)
  | n, s + 1 => if n % 10 = 0 then decCanon (n / 10) s else (n, s + 1)

/-- `str(float)`: shortest decimal rendering; integral floats print with
`.0`. -/
def decToPyFloatStr (num : Int) (scale : Nat) : String :=
  let (n, s) := decCanon num scale
  if s = 0 then toString n ++ ".0" else decToString n s

/-- `str(value)` for the scalar values the engine stringifies; containers
only reach `str` where the result is then rejected by a numeric parser,
so their rendering is a placeholder. -/
def pyStr : Value → String
  | .vNone => "None"
  | .vBool b => if b then "True" else "False"
  | .vInt n => toString n
  | .vFloat n s => decToPyFloatStr n s
  | .vStr s => s
  | .vDec n s => decToString n s
  | .vDate s => s
  | .vDatetime s => s
  | .vNil => "NIL"
  | .vList _ => "[list]"
  | .vDict _ => "{dict}"

/-- `diff_engine._normalize`: `Decimal` → fixed 4-digit string, `int` and
`float` (but not `bool`) → `Decimal(str(value))`, `datetime`/`date` →
ISO string, everything else unchanged. -/
def normalize : Value → Value
  | .vNone => .vNone
  | .vDec n s => .vStr (formatFixed4 n s)
  | .vInt n => .vDec n 0
  | .vFloat n s => .vDec n s
  | .vDatetime s => .vStr s
  | .vDate s => .vStr s
  | v => v

/-- `diff_engine.DiffItem`. -/
structure DiffItem where
  target_field : String
  old_value : Value
  new_value : Value
  culture : Option String
  /-- The source calls this field `section`, a keyword in Lean. -/
  sectionTag : Option String

/-- `diff_engine.diff_product_data`: compare every desired key except the
category/stock sections against the current snapshot after
normalization. -/
def diff_product_data (current desired : Dict) (culture : Option String) : List DiffItem :=
  desired.foldr
    (fun (kv : String × Value) acc =>
      if kv.1 = "ProductInCategories" ∨ kv.1 = "StockData" then acc
      else
        let currentValue := dictGet current kv.1
        if pyValueEq (normalize currentValue) (normalize kv.2) then acc
        else ⟨kv.1, currentValue, kv.2, culture, some "ProductData"⟩ :: acc)
    []

/-- `diff_engine._normalize_category_ids`. -/
def normalizeCategoryIds (categories : List Value) : List String :=
  categories.foldr
    (fun item acc =>
      let categoryId :=
        match item with
        | .vDict d => dictGet d "CategoryId"
        | v => v
      match categoryId with
      | .vNone => acc
      | v => pyStr v :: acc)
    []

/-- `diff_engine.diff_categories`: order-insensitive comparison of the
normalized id lists, one diff item carrying both lists when unequal. -/
def diff_categories (currentCategories desiredCategories : List Value)
    (culture : Option String) : List DiffItem :=
  let currentIds := normalizeCategoryIds currentCategories
  let desiredIds := normalizeCategoryIds desiredCategories
  if currentIds.mergeSort (· ≤ ·) = desiredIds.mergeSort (· ≤ ·) then []
  else [⟨"ProductInCategories", .vList (currentIds.map .vStr), .vList (desiredIds.map .vStr),
         culture, some "Categories"⟩]

/-- `diff_engine.diff_stock`: key-by-key like product data. -/
def diff_stock (currentStock desiredStock : Dict) (culture : Option String) : List DiffItem :=
  desiredStock.foldr
    (fun (kv : String × Value) acc =>
      let currentValue := dictGet currentStock kv.1
      if pyValueEq (normalize currentValue) (normalize kv.2) then acc
      else ⟨kv.1, currentValue, kv.2, culture, some "StockData"⟩ :: acc)
    []

/-- `diff_engine.diff_dynamic_fields`: nested (key, culture) comparison. -/
def diff_dynamic_fields (current desired : List (String × Dict)) : List DiffItem :=
  desired.foldr
    (fun (kd : String × Dict) acc =>
      kd.2.foldr
        (fun (cv : String × Value) acc' =>
          let currentValue :=
            match current.lookup kd.1 with
            | some d => dictGet d cv.1
            | none => .vNone
          if pyValueEq (normalize currentValue) (normalize cv.2) then acc'
          else ⟨kd.1, currentValue, cv.2, some cv.1, some "DynamicFields"⟩ :: acc')
        acc)
    []

/-! ### `validator.py` -/

/-- `validator.ValidationError` (dataclass `field`, `message`; `field`
renamed to `efield` to avoid clashing with Lean vocabulary). -/
structure ValidationError where
  efield : String
  message : String

/-- Exceptions a coercion can raise: `vErr` is a `ValidationError`
(also the wrapper around caught `ValueError`/`InvalidOperation`), while
`typeErr` models a Python `TypeError`, which `coerce_value`'s
`except (ValueError, InvalidOperation, ValidationError)` clause does NOT
catch, so it propagates to the caller. -/
inductive CoerceErr where
  | vErr (e : ValidationError)
  | typeErr (msg : String)

/-- Python exceptions raised by the numeric builtins. -/
inductive PyExc where
  | valueError (msg : String)
  | typeError (msg : String)

/-- Python's whitespace set for `str.strip()`. -/
def pyWhitespace (c : Char) : Bool :=
  c = ' ' || c = '\t' || c = '\n' || c = '\r' || c = '\x0b' || c = '\x0c'

/-- `str.strip()`. -/
def pyStrip (s : String) : String :=
  String.mk (((s.toList.dropWhile pyWhitespace).reverse.dropWhile pyWhitespace).reverse)

/-- `str.lower()` (the engine only lowercases ASCII markers). -/
def strToLower (s : String) : String :=
  String.mk (s.toList.map Char.toLower)

def replaceAux (pat subst : List Char) : Nat → List Char → List Char
  | _, [] => []
  | 0, cs => cs
  | fuel + 1, c :: rest =>
    if pat.isPrefixOf (c :: rest) && !pat.isEmpty then
      subst ++ replaceAux pat subst fuel (List.drop (pat.length - 1) rest)
    else c :: replaceAux pat subst fuel rest

/-- `str.replace(pat, subst)`: all non-overlapping occurrences, left to
right. -/
def strReplace (s pat subst : String) : String :=
  if pat.toList.isEmpty then s
  else String.mk (replaceAux pat.toList subst.toList (s.toList.length + 1) s.toList)

def splitOnAux (sep : List Char) : Nat → List Char → List Char → List (List Char)
  | _, [], acc => [acc.reverse]
  | 0, cs, acc => [acc.reverse ++ cs]
  | fuel + 1, c :: rest, acc =>
    if sep.isPrefixOf (c :: rest) && !sep.isEmpty then
      acc.reverse :: splitOnAux sep fuel (List.drop (sep.length - 1) rest) []
    else splitOnAux sep fuel rest (c :: acc)

/-- `str.split(sep)` for a non-empty separator. -/
def strSplitOn (s sep : String) : List String :=
  (splitOnAux sep.toList (s.toList.length + 1) s.toList []).map String.mk

/-- `validator.is_empty`. -/
def is_empty : Value → Bool
  | .vNone => true
  | .vStr s => pyStrip s = ""
  | .vList xs => xs.isEmpty
  | _ => false

def digitsToNat (cs : List Char) : Nat :=
  cs.foldl (fun a c => a * 10 + (c.toNat - 48)) 0

/-- Unsigned decimal literal `digits[.digits]` (at least one digit),
returned as scaled integer. -/
def parseUnsignedDec (cs : List Char) : Option (Nat × Nat) :=
  let intPart := cs.takeWhile (·.isDigit)
  let rest := cs.dropWhile (·.isDigit)
  match rest with
  | [] => if intPart.isEmpty then none else some (digitsToNat intPart, 0)
  | '.' :: rest2 =>
    let fracPart := rest2.takeWhile (·.isDigit)
    let rest3 := rest2.dropWhile (·.isDigit)
    if rest3.isEmpty ∧ ¬(intPart.isEmpty ∧ fracPart.isEmpty) then
      some (digitsToNat (intPart ++ fracPart), fracPart.length)
    else none
  | _ => none

def parseSignedInt (cs : List Char) : Option Int :=
  match cs with
  | '+' :: rest =>
    if rest.all (·.isDigit) ∧ ¬rest.isEmpty then some (digitsToNat rest) else none
  | '-' :: rest =>
    if rest.all (·.isDigit) ∧ ¬rest.isEmpty then some (-(digitsToNat rest : Int)) else none
  | _ => if cs.all (·.isDigit) ∧ ¬cs.isEmpty then some (digitsToNat cs) else none

/-- `Decimal(str)`: optional sign, decimal literal, optional exponent
(`inf`/`nan` literals are not modelled; the engine never feeds them),
kept exact as a scaled integer. -/
def decimalParse (s : String) : Option DecNum :=
  let cs := (pyStrip s).toList
  let mant := cs.takeWhile (fun c => c ≠ 'e' ∧ c ≠ 'E')
  let expPart := cs.dropWhile (fun c => c ≠ 'e' ∧ c ≠ 'E')
  let signed : Bool × List Char :=
    match mant with
    | '+' :: rest => (false, rest)
    | '-' :: rest => (true, rest)
    | _ => (false, mant)
  match parseUnsignedDec signed.2 with
  | none => none
  | some (num, scale) =>
    let n : Int := if signed.1 then -(num : Int) else (num : Int)
    match expPart with
    | [] => some (n, scale)
    | _ :: ecs =>
      match parseSignedInt ecs with
      | some e =>
        if 0 ≤ e then
          if scale ≤ e.toNat then some (n * 10 ^ (e.toNat - scale), 0)
          else some (n, scale - e.toNat)
        else some (n, scale + (-e).toNat)
      | none => none

/-- `float(str)`: accepts the same finite decimal literals as
`Decimal(str)` on the engine's inputs. -/
def floatParse (s : String) : Option DecNum := decimalParse s

/-- `date.fromisoformat` validity: `YYYY-MM-DD` with plausible ranges. -/
def isoDateValid (s : String) : Bool :=
  match s.toList with
  | [y1, y2, y3, y4, '-', m1, m2, '-', d1, d2] =>
    [y1, y2, y3, y4, m1, m2, d1, d2].all (·.isDigit) &&
      (let m := digitsToNat [m1, m2]
       let d := digitsToNat [d1, d2]
       1 ≤ m && m ≤ 12 && 1 ≤ d && d ≤ 31)
  | _ => false

/-- `datetime.fromisoformat` validity, modelled as a valid date followed
by a `T`/space separator and a time/offset tail. -/
def isoDatetimeValid (s : String) : Bool :=
  let cs := s.toList
  if cs.length = 10 then isoDateValid s
  else
    isoDateValid (String.mk (cs.take 10)) &&
      (cs.get? 10 = some 'T' || cs.get? 10 = some ' ') &&
      (cs.drop 11).all (fun c => c.isDigit || c = ':' || c = '.' || c = '+' || c = '-') &&
      decide (16 ≤ cs.length)

/-- `float(value)` on the engine's value kinds (`bool` counts as an
integer, so `float(True) == 1.0`). -/
def pyFloatOf : Value → Except PyExc DecNum
  | .vInt n => .ok (n, 0)
  | .vFloat n s => .ok (n, s)
  | .vBool b => .ok (if b then 1 else 0, 0)
  | .vDec n s => .ok (n, s)
  | .vStr s =>
    match floatParse s with
    | some q => .ok q
    | none => .error (.valueError ("could not convert string to float: " ++ s))
  | v => .error (.typeError ("float() argument must be a string or a real number, not " ++ pyTypeName v))

/-- Python `int(float)` truncates toward zero. -/
def decTrunc (d : DecNum) : Int :=
  let m := d.1.natAbs / (10 ^ d.2 : Nat)
  if d.1 < 0 then -(m : Int) else (m : Int)

/-- `validator._parse_date`: a `datetime` is not accepted, a string is
split at `T` and parsed as ISO date, anything else raises `ValueError`. -/
def parse_date : Value → Except PyExc Value
  | .vDate s => .ok (.vDate s)
  | .vStr s =>
    let t := (strSplitOn s "T").headD ""
    if isoDateValid t then .ok (.vDate t)
    else .error (.valueError ("Invalid isoformat string: " ++ t))
  | _ => .error (.valueError "invalid date value")

/-- `validator._parse_datetime`: `Z` suffix normalized to `+00:00`. -/
def parse_datetime : Value → Except PyExc Value
  | .vDatetime s => .ok (.vDatetime s)
  | .vStr s =>
    let t := strReplace s "Z" "+00:00"
    if isoDatetimeValid t then .ok (.vDatetime t)
    else .error (.valueError ("Invalid isoformat string: " ++ t))
  | _ => .error (.valueError "invalid datetime value")

def coerceList (f : Value → Except CoerceErr Value) : List Value → Except CoerceErr (List Value)
  | [] => .ok []
  | x :: xs => do
    let v ← f x
    let vs ← coerceList f xs
    pure (v :: vs)

/-- Body of `validator.coerce_value`, abstracted over the item coercion
used in the `list` branch (the source recurses with `item_type=None`;
see `coerce_value` below, which ties the knot at recursion depth one
exactly as the source does). -/
def coerceValueCore (itemCoerce : Option (Value → Except CoerceErr Value)) (value : Value)
    (expectedType policy : String) : Except CoerceErr Value :=
  match value with
  | .vNone => .ok .vNone
  | _ =>
  if expectedType = "string" then
    match value with
    | .vStr s => .ok (.vStr s)
    | v =>
      if policy = "coerce" then .ok (.vStr (pyStr v))
      else .error (.vErr ⟨expectedType, "expected string, got " ++ pyTypeName v⟩)
  else if expectedType = "int" then
    match value with
    | .vBool _ => .error (.vErr ⟨expectedType, "bool is not int"⟩)
    | .vInt n => .ok (.vInt n)
    | v =>
      if policy = "coerce" then
        match pyFloatOf v with
        | .ok q => .ok (.vInt (decTrunc q))
        | .error (.valueError m) => .error (.vErr ⟨expectedType, m⟩)
        | .error (.typeError m) => .error (.typeErr m)
      else .error (.vErr ⟨expectedType, "expected int, got " ++ pyTypeName v⟩)
  else if expectedType = "float" then
    match value with
    | .vInt n => .ok (.vFloat n 0)
    | .vFloat n s => .ok (.vFloat n s)
    | v =>
      if policy = "coerce" then
        match pyFloatOf v with
        | .ok q => .ok (.vFloat q.1 q.2)
        | .error (.valueError m) => .error (.vErr ⟨expectedType, m⟩)
        | .error (.typeError m) => .error (.typeErr m)
      else .error (.vErr ⟨expectedType, "expected float, got " ++ pyTypeName v⟩)
  else if expectedType = "decimal" then
    match value with
    | .vDec n s => .ok (.vDec n s)
    | v =>
      if policy = "coerce" then
        match decimalParse (pyStr v) with
        | some (n, s) => .ok (.vDec n s)
        | none => .error (.vErr ⟨expectedType, "invalid decimal literal: " ++ pyStr v⟩)
      else .error (.vErr ⟨expectedType, "expected decimal, got " ++ pyTypeName v⟩)
  else if expectedType = "bool" then
    match value with
    | .vBool b => .ok (.vBool b)
    | v =>
      if policy = "coerce" then
        match v with
        | .vStr s =>
          let lowered := strToLower (pyStrip s)
          if lowered = "true" ∨ lowered = "1" ∨ lowered = "yes" then .ok (.vBool true)
          else if lowered = "false" ∨ lowered = "0" ∨ lowered = "no" then .ok (.vBool false)
          else .error (.vErr ⟨expectedType, "expected bool, got str"⟩)
        | .vInt n => .ok (.vBool (n ≠ 0))
        | .vFloat n _ => .ok (.vBool (n ≠ 0))
        | w => .error (.vErr ⟨expectedType, "expected bool, got " ++ pyTypeName w⟩)
      else .error (.vErr ⟨expectedType, "expected bool, got " ++ pyTypeName v⟩)
  else if expectedType = "date" then
    match value with
    | .vDate s => .ok (.vDate s)
    | v =>
      if policy = "coerce" then
        match parse_date v with
        | .ok d => .ok d
        | .error (.valueError m) => .error (.vErr ⟨expectedType, m⟩)
        | .error (.typeError m) => .error (.typeErr m)
      else .error (.vErr ⟨expectedType, "expected date, got " ++ pyTypeName v⟩)
  else if expectedType = "datetime" then
    match value with
    | .vDatetime s => .ok (.vDatetime s)
    | v =>
      if policy = "coerce" then
        match parse_datetime v with
        | .ok d => .ok d
        | .error (.valueError m) => .error (.vErr ⟨expectedType, m⟩)
        | .error (.typeError m) => .error (.typeErr m)
      else .error (.vErr ⟨expectedType, "expected datetime, got " ++ pyTypeName v⟩)
  else if expectedType = "list" then
    match value with
    | .vList xs =>
      match itemCoerce with
      | some f => (coerceList f xs).map .vList
      | none => .ok (.vList xs)
    | v =>
      if policy = "coerce" then .ok (.vList [v])
      else .error (.vErr ⟨expectedType, "expected list, got " ++ pyTypeName v⟩)
  else .error (.vErr ⟨expectedType, "unknown expected type: " ++ expectedType⟩)

/-- `validator.coerce_value`: list items are coerced with
`coerce_value(item, item_type, policy)`, i.e. with no nested item type. -/
def coerce_value (value : Value) (expectedType policy : String) (itemType : Option String) :
    Except CoerceErr Value :=
  coerceValueCore (itemType.map fun t x => coerceValueCore none x t policy) value expectedType policy

/-- The declarative constraint set of a mapping entry. Config-file
numbers are kept as exact rationals (the source compares through
`Decimal(str(...))`, an exact decimal comparison); the compiled regex is
modelled by its matcher function (`re.match`, anchored at the start). -/
structure Validations where
  max_length : Option Nat
  min : Option DecNum
  max : Option DecNum
  regex : Option (String → Bool)

def Validations.empty : Validations := ⟨none, none, none, none⟩

/-- `validator.validate_constraints`: max length (strings), min/max
(numerics, with Python's `bool ⊆ int`), regex (strings), in that order. -/
def validate_constraints (value : Value) (validations : Validations) (fieldName : String) :
    Except ValidationError Unit :=
  match value with
  | .vNone => .ok ()
  | v =>
    if (match validations.max_length, v with
        | some l, .vStr s => decide (l < s.length)
        | _, _ => false) then
      .error ⟨fieldName, "max_length exceeded"⟩
    else if (match validations.min, numVal v with
        | some m, some q => decLtB q m
        | _, _ => false) then
      .error ⟨fieldName, "value below min"⟩
    else if (match validations.max, numVal v with
        | some m, some q => decLtB m q
        | _, _ => false) then
      .error ⟨fieldName, "value above max"⟩
    else if (match validations.regex, v with
        | some matcher, .vStr s => !matcher s
        | _, _ => false) then
      .error ⟨fieldName, "regex validation failed"⟩
    else .ok ()

/-! ### `transformers.py` -/

/-- `transformers.TransformContext`. -/
structure TransformContext where
  culture : Option String
  feed_language : Option String
  fallback_language : Option String
  /-- The source calls this field `attribute`, a keyword in Lean. -/
  attributeObj : Option Dict

/-- `mapping_loader.TransformSpec`: `args` is a free-form dict in the
source of which the registry only ever reads `join_delimiter`. -/
structure TransformSpec where
  name : String
  join_delimiter : Option String

/-- `transformers.newline_to_br`. -/
def newline_to_br (value : Value) : Value :=
  match value with
  | .vNone => .vNone
  | .vStr s => .vStr (strReplace (strReplace s "\r\n" "\n") "\n" "<br>")
  | v => v

/-- Round-half-up (ties away from zero) division of `n` by `10^k`
(`decimal.ROUND_HALF_UP`). -/
def roundHalfUp (n : Int) (k : Nat) : Int :=
  let d : Nat := 10 ^ k
  let m : Nat := (n.natAbs + d / 2) / d
  if n < 0 then -(m : Int) else (m : Int)

/-- `transformers.format_price`: parse as decimal (pass the value through
unchanged on failure), quantize to 4 fractional digits half-up, render
as fixed-point string. -/
def format_price (value : Value) : Value :=
  match value with
  | .vNone => .vNone
  | v =>
    match decimalParse (pyStr v) with
    | none => v
    | some (n, s) =>
      let n4 : Int := if s ≤ 4 then n * 10 ^ (4 - s) else roundHalfUp n (s - 4)
      .vStr (decToString n4 4)

/-- `transformers.join_list`. -/
def join_list (value : Value) (joinDelimiter : String) : Value :=
  match value with
  | .vNone => .vNone
  | .vList xs => .vStr (String.intercalate joinDelimiter (xs.map pyStr))
  | v => v

/-- The label lookup `map_code` inside `transformers.data_register_label`. -/
def mapCode (options : Dict) (feedLang fallbackLang : Option String) (code : Value) : Value :=
  let codeStr := pyStr code
  let labels :=
    match options.lookup codeStr with
    | some l => if pyTruthy l then l else .vDict []
    | none => .vDict []
  match labels with
  | .vDict ld =>
    let tryLang : Option String → Option Value := fun lang =>
      match lang with
      | some l =>
        let label := dictGet ld l
        if is_empty label then none else some label
      | none => none
    match tryLang feedLang with
    | some label => label
    | none =>
      match tryLang fallbackLang with
      | some label => label
      | none => .vStr codeStr
  | _ => .vStr codeStr

/-- `transformers.data_register_label`. -/
def data_register_label (value : Value) (context : TransformContext) (joinDelimiter : String) :
    Value :=
  match value with
  | .vNone => .vNone
  | v =>
    let attrRaw : Option Dict × Value :=
      match v with
      | .vDict d =>
        if (d.lookup "options").isSome ∧ (d.lookup "value").isSome then (some d, dictGet d "value")
        else
          (match context.attributeObj with
           | some a => if a.isEmpty then (none, v) else (some a, v)
           | none => (none, v))
      | _ =>
        match context.attributeObj with
        | some a => if a.isEmpty then (none, v) else (some a, v)
        | none => (none, v)
    match attrRaw.1 with
    | none => v
    | some attributeObj =>
      let options :=
        match dictGet attributeObj "options" with
        | o => if pyTruthy o then o else .vDict []
      let optionsDict := match options with | .vDict d => d | _ => []
      match attrRaw.2 with
      | .vList codes =>
        let mapped := codes.map (mapCode optionsDict context.feed_language context.fallback_language)
        .vStr (String.intercalate joinDelimiter (mapped.map pyStr))
      | raw => mapCode optionsDict context.feed_language context.fallback_language raw

/-- `transformers.apply_transforms`: dispatch through the fixed registry
in declaration order. Unknown names would raise `KeyError` in the
source; the mapping loader rejects them before a config loads, and the
engine only synthesizes registered names, so that branch is modelled as
the identity. -/
def apply_transforms (value : Value) (transforms : List TransformSpec)
    (context : TransformContext) : Value :=
  transforms.foldl
    (fun current spec =>
      if spec.name = "newline_to_br" then newline_to_br current
      else if spec.name = "format_price" then format_price current
      else if spec.name = "join_list" then join_list current (spec.join_delimiter.getD ", ")
      else if spec.name = "data_register_label" then
        data_register_label current context (spec.join_delimiter.getD ", ")
      else current)
    value

/-! ### `mapping_loader.py` — the in-memory mapping model -/

/-- `mapping_loader.FieldMapping`. -/
structure FieldMapping where
  target : String
  source : Option String
  source_by_culture : Option (List (String × String))
  fallback_by_culture : Option (List (String × String))
  cultures : Option (List String)
  fallback : Option String
  type : String
  item_type : Option String
  coerce : String
  transforms : List TransformSpec
  validations : Validations
  optional : Bool
  preserve_if_missing : Bool
  allow_empty : Bool

/-- `mapping_loader.DynamicFieldMapping`. -/
structure DynamicFieldMapping where
  key : String
  source : Option String
  source_by_culture : Option (List (String × String))
  fallback_by_culture : Option (List (String × String))
  cultures : Option (List String)
  fallback : Option String
  type : String
  item_type : Option String
  coerce : String
  transforms : List TransformSpec
  validations : Validations
  optional : Bool
  allow_empty : Bool

/-- `mapping_loader.CategoryMapping`. -/
structure CategoryMapping where
  source : String
  type : String
  item_type : Option String
  coerce : String
  strategy : String
  optional : Bool

/-- `mapping_loader.PriceListMapping`. -/
structure PriceListMapping where
  name : Option String
  price_list_id : String
  price_source : String
  discounted_price_source : Option String
  discount_period_source : Option String
  hide_product_source : Option String
  clear_discount_on_missing : Bool
  type : String
  coerce : String
  optional : Bool

/-- `mapping_loader.AutoDynamicFieldConfig`. -/
structure AutoDynamicFieldConfig where
  enabled : Bool
  coerce : String
  type : String
  include_data_types : Option (List String)
  join_delimiter : String
  skip_range : Bool
  allowed_keys : List String

/-- `mapping_loader.MappingConfig`. -/
structure MappingConfig where
  version : Int
  cultures : List String
  fallbacks : List (String × String)
  culture_map : List (String × String)
  product_fields : List FieldMapping
  stock_fields : List FieldMapping
  category_fields : CategoryMapping
  dynamic_fields_auto_map : AutoDynamicFieldConfig
  dynamic_fields_allowlist : List DynamicFieldMapping
  price_lists : List PriceListMapping

/-- `mapping_loader.parse_source_selector`: the bracket grammar
`(texts|attributes)[key](.path)?` with non-empty key and path, else
fall back to splitting on dots. -/
def parse_source_selector (source : String) : String × Option String × List String :=
  let bracketMatch : Option (String × String × String) :=
    let tryRoot : String → Option (String × String × String) := fun root =>
      if (root.toList ++ ['[']).isPrefixOf source.toList then
        let after := source.toList.drop (root.length + 1)
        let key := after.takeWhile (· ≠ ']')
        match after.dropWhile (· ≠ ']') with
        | ']' :: tail =>
          if key.isEmpty then none
          else
            match tail with
            | [] => some (root, String.mk key, "")
            | '.' :: ptail =>
              if ptail.isEmpty then none else some (root, String.mk key, String.mk ptail)
            | _ => none
        | _ => none
      else none
    match tryRoot "texts" with
    | some m => some m
    | none => tryRoot "attributes"
  match bracketMatch with
  | some (root, key, pathStr) =>
    (root, some key, (strSplitOn pathStr ".").filter (· ≠ ""))
  | none =>
    match strSplitOn source "." with
    | [] => (source, none, [])
    | root :: rest => (root, none, rest)

/-- `sync_engine._resolve_source`: evaluate a selector against the
product document and the per-product code indexes. Returns the resolved
value (`vNone` for absent) and, for `attributes` roots, the attribute
object itself. -/
def resolve_source (source : String) (product : Dict)
    (attributesByCode textsByCode : List (String × Dict)) : Value × Option Dict :=
  let (root, key, path) := parse_source_selector source
  let walk : Value → List String → Value := fun v segs =>
    segs.foldl
      (fun acc seg =>
        match acc with
        | .vDict d => dictGet d seg
        | _ => .vNone)
      v
  if root = "attributes" then
    match attributesByCode.lookup (key.getD "") with
    | none => (.vNone, none)
    | some attributeObj =>
      if attributeObj.isEmpty then (.vNone, none)
      else (walk (.vDict attributeObj) path, some attributeObj)
  else if root = "texts" then
    match textsByCode.lookup (key.getD "") with
    | none => (.vNone, none)
    | some text =>
      if text.isEmpty then (.vNone, none)
      else (walk (.vDict text) path, none)
  else
    (walk (dictGet product root) path, none)

/-- Python's `a or b` on optional strings: the empty string is falsy. -/
def pyOrStr (a : Option String) (b : Option String) : Option String :=
  match a with
  | some s => if s ≠ "" then some s else b
  | none => b

/-- The inner `pick` of `sync_engine._select_localized`: a falsy
(missing or empty) key, a missing map entry, or a present-but-empty
value is no match. -/
def pickLocalized (value : Dict) (key : Option String) : Option Value :=
  match key with
  | some k =>
    if k = "" then none
    else
      match value.lookup k with
      | none => none
      | some selected => if is_empty selected then none else some selected
  | none => none

/-- The feed-language code derived from a culture string
(`mapping.culture_map.get(c) if c else None`). -/
def feedLanguageOf (mapping : MappingConfig) (culture : Option String) : Option String :=
  match culture with
  | some c => if c ≠ "" then mapping.culture_map.lookup c else none
  | none => none

/-- `sync_engine._select_localized`: pick a per-culture value out of a
multi-language map, in the order feed-language, raw culture,
fallback feed-language, raw fallback culture, skipping keys that are
missing or whose value is empty. -/
def select_localized (value : Dict) (mapping : MappingConfig) (culture : String)
    (fallback : Option String) : Value :=
  let feedLang := mapping.culture_map.lookup culture
  let fallbackCulture := pyOrStr fallback (mapping.fallbacks.lookup culture)
  let fallbackLang := feedLanguageOf mapping fallbackCulture
  match pickLocalized value feedLang with
  | some selected => selected
  | none =>
    match pickLocalized value (some culture) with
    | some selected => selected
    | none =>
      match pickLocalized value fallbackLang with
      | some selected => selected
      | none =>
        match pickLocalized value fallbackCulture with
        | some selected => selected
        | none => .vNone

/-! ### `sync_engine.py` — the desired-state builder -/

/-- The selector-related fields `_select_source` reads (the source
duck-types over `FieldMapping` and `DynamicFieldMapping`). -/
structure SourceSel where
  source : Option String
  source_by_culture : Option (List (String × String))
  fallback_by_culture : Option (List (String × String))

def FieldMapping.sel (e : FieldMapping) : SourceSel :=
  ⟨e.source, e.source_by_culture, e.fallback_by_culture⟩

def DynamicFieldMapping.sel (e : DynamicFieldMapping) : SourceSel :=
  ⟨e.source, e.source_by_culture, e.fallback_by_culture⟩

/-- `sync_engine._select_source`: the per-culture selector map wins when
present for the culture (or its per-culture fallback), else the single
selector; a missing selector raises `ValueError`. Python truthiness:
empty maps, empty strings and `None` are all falsy. -/
def select_source (entry : SourceSel) (culture : Option String) : Except String String :=
  let sbcTruthy := match entry.source_by_culture with | some m => !m.isEmpty | none => false
  let cultTruthy := match culture with | some c => c != "" | none => false
  let fromByCulture : Option String :=
    if sbcTruthy && cultTruthy then
      let m := entry.source_by_culture.getD []
      let c := culture.getD ""
      match m.lookup c with
      | some src => some src
      | none =>
        let fb : Option String :=
          match entry.fallback_by_culture with
          | some fm => if fm.isEmpty then none else fm.lookup c
          | none => none
        match fb with
        | some f => if f ≠ "" then m.lookup f else none
        | none => none
    else none
  match fromByCulture with
  | some src => .ok src
  | none =>
    match entry.source with
    | some s => if s ≠ "" then .ok s else .error "No source available for mapping entry"
    | none => .error "No source available for mapping entry"

/-- `sync_engine._attribute_value_removed`: only `attributes` selectors
whose attribute object exists but carries no usable `value` count as
"removed". -/
def attribute_value_removed (source : String) (attributeObj : Option Dict) : Bool :=
  match attributeObj with
  | none => false
  | some attr =>
    if attr.isEmpty then false
    else
      let (root, _key, _path) := parse_source_selector source
      if root ≠ "attributes" then false
      else
        match attr.lookup "value" with
        | none => true
        | some v =>
          match v with
          | .vDict d => if d.isEmpty then true else d.all (fun kv => is_empty kv.2)
          | w => is_empty w

/-- `sync_engine._empty_value_for_type`. -/
def empty_value_for_type (expectedType : String) (allowNil : Bool) : Value :=
  if expectedType = "string" then .vStr ""
  else if expectedType = "list" then .vList []
  else if allowNil ∧ (expectedType = "date" ∨ expectedType = "datetime") then .vNil
  else .vNone

/-- `sync_engine._coerce_with_policy`: a `ValidationError` degrades to a
warning (original value passes through) under the lenient `"coerce"`
policy and is appended to the error list (yielding `None`) under
`"strict"`; an uncaught `TypeError` propagates. -/
def coerce_with_policy (value : Value) (expectedType policy : String) (itemType : Option String)
    (fieldName : String) (errors : List String) : Except String (Value × List String) :=
  match value with
  | .vNone => .ok (.vNone, errors)
  | v =>
    match coerce_value v expectedType policy itemType with
    | .ok w => .ok (w, errors)
    | .error (.vErr e) =>
      if policy = "coerce" then .ok (v, errors)
      else .ok (.vNone, errors ++ [fieldName ++ ": " ++ e.message])
    | .error (.typeErr m) => .error m

/-- The `value = raw_value["value"]` unwrap applied when an attribute
resolved to its whole object. -/
def unwrapAttrValue (attributeObj : Option Dict) (rawValue : Value) : Value :=
  match attributeObj, rawValue with
  | some a, .vDict d =>
    if ¬a.isEmpty ∧ (d.lookup "value").isSome then dictGet d "value" else rawValue
  | _, _ => rawValue

/-- `sync_engine._apply_mapping_entry`: the full selector → localization
→ coercion → transform → validation pipeline for one product/stock
field. Returns the resolved value (`vNone` for an omission) and the
updated error list. -/
def apply_mapping_entry (entry : FieldMapping) (product : Dict)
    (attributesByCode textsByCode : List (String × Dict)) (mapping : MappingConfig)
    (culture : Option String) (errors : List String) (allowNil : Bool) :
    Except String (Value × List String) := do
  let source ← select_source entry.sel culture
  let (rawValue, attributeObj) := resolve_source source product attributesByCode textsByCode
  if attribute_value_removed source attributeObj then
    match empty_value_for_type entry.type allowNil with
    | .vNone =>
      if entry.optional ∨ entry.preserve_if_missing then .ok (.vNone, errors)
      else .ok (.vNone, errors ++ [entry.target ++ ": missing required value"])
    | emptyValue => .ok (emptyValue, errors)
  else
    let value := unwrapAttrValue attributeObj rawValue
    let value :=
      match culture, value with
      | some c, .vDict d => if c ≠ "" then select_localized d mapping c entry.fallback else value
      | _, _ => value
    if ¬entry.allow_empty ∧ is_empty value then
      if entry.optional ∨ entry.preserve_if_missing then .ok (.vNone, errors)
      else .ok (.vNone, errors ++ [entry.target ++ ": missing required value"])
    else do
      let (value, errors) ←
        coerce_with_policy value entry.type entry.coerce entry.item_type entry.target errors
      let fallbackCulture :=
        pyOrStr entry.fallback
          (match culture with | some c => mapping.fallbacks.lookup c | none => none)
      let context : TransformContext :=
        { culture := culture
          feed_language :=
            match culture with
            | some c => if c ≠ "" then mapping.culture_map.lookup c else none
            | none => none
          fallback_language :=
            match fallbackCulture with
            | some fc => if fc ≠ "" then mapping.culture_map.lookup fc else none
            | none => none
          attributeObj := attributeObj }
      let value := apply_transforms value entry.transforms context
      match validate_constraints value entry.validations entry.target with
      | .error e => .ok (.vNone, errors ++ [e.efield ++ ": " ++ e.message])
      | .ok _ =>
        if ¬entry.allow_empty ∧ is_empty value then
          if entry.optional ∨ entry.preserve_if_missing then .ok (.vNone, errors)
          else .ok (.vNone, errors ++ [entry.target ++ ": empty value not allowed"])
        else .ok (value, errors)

/-- `sync_engine._apply_dynamic_mapping`: like `_apply_mapping_entry`
but a removed attribute value resolves to an explicit empty string
(destination dynamic fields are actively cleared), and there is no
`preserve_if_missing`. -/
def apply_dynamic_mapping (entry : DynamicFieldMapping) (product : Dict)
    (attributesByCode textsByCode : List (String × Dict)) (mapping : MappingConfig)
    (culture : String) (errors : List String) : Except String (Value × List String) := do
  let source ← select_source entry.sel (some culture)
  let (rawValue, attributeObj) := resolve_source source product attributesByCode textsByCode
  if attribute_value_removed source attributeObj then
    .ok (.vStr "", errors)
  else
    let value := unwrapAttrValue attributeObj rawValue
    let value :=
      match value with
      | .vDict d => select_localized d mapping culture entry.fallback
      | v => v
    if ¬entry.allow_empty ∧ is_empty value then
      if entry.optional then .ok (.vNone, errors)
      else .ok (.vNone, errors ++ [entry.key ++ ": missing required value"])
    else do
      let (value, errors) ←
        coerce_with_policy value entry.type entry.coerce entry.item_type entry.key errors
      let fallbackCulture := pyOrStr entry.fallback (mapping.fallbacks.lookup culture)
      let context : TransformContext :=
        { culture := some culture
          feed_language := mapping.culture_map.lookup culture
          fallback_language :=
            match fallbackCulture with
            | some fc => if fc ≠ "" then mapping.culture_map.lookup fc else none
            | none => none
          attributeObj := attributeObj }
      let value := apply_transforms value entry.transforms context
      match validate_constraints value entry.validations entry.key with
      | .error e => .ok (.vNone, errors ++ [e.efield ++ ": " ++ e.message])
      | .ok _ =>
        if ¬entry.allow_empty ∧ is_empty value then
          if entry.optional then .ok (.vNone, errors)
          else .ok (.vNone, errors ++ [entry.key ++ ": empty value not allowed"])
        else .ok (value, errors)

/-- `sync_engine._extract_categories`: category ids extracted once (not
per culture) and normalized to strings. -/
def extract_categories (categoryMapping : CategoryMapping) (product : Dict)
    (attributesByCode : List (String × Dict)) (errors : List String) :
    Except String (Option (List String) × List String) :=
  let (rawValue, _attr) := resolve_source categoryMapping.source product attributesByCode []
  match rawValue with
  | .vNone =>
    if categoryMapping.optional then .ok (none, errors)
    else .ok (some [], errors ++ ["Category mapping missing required value"])
  | v => do
    let (categories, errors) ←
      coerce_with_policy v categoryMapping.type categoryMapping.coerce
        categoryMapping.item_type "categories" errors
    match categories with
    | .vList xs => .ok (some (xs.map pyStr), errors)
    | w => .ok (some [pyStr w], errors)

/-- `entry.name or entry.price_list_id`. -/
def plFieldName (entry : PriceListMapping) : String :=
  match entry.name with
  | some n => if n ≠ "" then n else entry.price_list_id
  | none => entry.price_list_id

/-- The body of `sync_engine._build_price_list_items` for one
price-list mapping entry: returns the items produced so far and the
updated error list. -/
def priceListEntryStep (productNo : Value) (product : Dict)
    (attributesByCode : List (String × Dict)) (entry : PriceListMapping)
    (items : List Dict) (errors : List String) : Except String (List Dict × List String) :=
  let (rawValue, _a) := resolve_source entry.price_source product attributesByCode []
  let value := match rawValue with | .vDict d => dictGet d "value" | v => v
  if is_empty value then
    if entry.optional then .ok (items, errors)
    else .ok (items, errors ++ ["price_list:" ++ entry.price_list_id ++ " missing price"])
  else do
    let (priceValue, errors) ←
      coerce_with_policy value entry.type entry.coerce none (plFieldName entry) errors
    match priceValue with
    | .vNone => .ok (items, errors)
    | pv =>
      let item : Dict :=
        [("ArticleNumber", productNo), ("PriceListId", .vStr entry.price_list_id),
         ("PriceIncVat", pv)]
      let hasDiscSrc := match entry.discounted_price_source with | some s => s != "" | none => false
      let (item, discountCleared, errors) ←
        if hasDiscSrc then do
          let (discRaw, _a) :=
            resolve_source (entry.discounted_price_source.getD "") product attributesByCode []
          let discValue := match discRaw with | .vDict d => dictGet d "value" | v => v
          let emptyDiscount0 := is_empty discValue
          let emptyDiscount :=
            if entry.clear_discount_on_missing ∧ ¬emptyDiscount0 then
              match discValue with
              | .vInt n => if n = 0 then true else emptyDiscount0
              | .vFloat n _ => if n = 0 then true else emptyDiscount0
              | .vBool b => if b = false then true else emptyDiscount0
              | .vStr s =>
                if pyStrip s = "0" ∨ pyStrip s = "0.0" ∨ pyStrip s = "0.00" then true
                else emptyDiscount0
              | _ => emptyDiscount0
            else emptyDiscount0
          if emptyDiscount then
            if entry.clear_discount_on_missing then
              pure (item ++ [("DiscountedPriceIncVat", Value.vInt (-1))], true, errors)
            else pure (item, false, errors)
          else do
            let (discountValue, errors) ←
              coerce_with_policy discValue entry.type entry.coerce none
                (plFieldName entry ++ "_discount") errors
            match discountValue with
            | .vNone => pure (item, false, errors)
            | dv => pure (item ++ [("DiscountedPriceIncVat", dv)], false, errors)
        else
          if entry.clear_discount_on_missing then
            pure (item ++ [("DiscountedPriceIncVat", Value.vInt (-1))], true, errors)
          else pure (item, false, errors)
      let hasPeriodSrc := match entry.discount_period_source with | some s => s != "" | none => false
      let (item, errors) ←
        if hasPeriodSrc then do
          let (periodRaw, _a) :=
            resolve_source (entry.discount_period_source.getD "") product attributesByCode []
          let periodValue := match periodRaw with | .vDict d => dictGet d "value" | v => v
          if is_empty periodValue then
            if entry.clear_discount_on_missing ∨ discountCleared then
              pure (item ++ [("UseDiscountDateSpan", Value.vBool false)], errors)
            else pure (item, errors)
          else
            match periodValue with
            | .vList (p0 :: p1 :: _) => do
              let (startValue, errors) ←
                coerce_with_policy p0 "datetime" entry.coerce none
                  (plFieldName entry ++ "_discount_start") errors
              let (endValue, errors) ←
                coerce_with_policy p1 "datetime" entry.coerce none
                  (plFieldName entry ++ "_discount_end") errors
              match startValue, endValue with
              | .vNone, _ | _, .vNone =>
                if entry.clear_discount_on_missing ∨ discountCleared then
                  pure (item ++ [("UseDiscountDateSpan", Value.vBool false)], errors)
                else pure (item, errors)
              | sv, ev =>
                pure (item ++ [("UseDiscountDateSpan", Value.vBool true),
                               ("DiscountStartDate", sv), ("DiscountEndDate", ev)], errors)
            | _ =>
              let message := "price_list:" ++ entry.price_list_id ++ " invalid discount period format"
              if entry.coerce = "coerce" then pure (item, errors)
              else pure (item, errors ++ [message])
        else pure (item, errors)
      let hasHideSrc := match entry.hide_product_source with | some s => s != "" | none => false
      let (item, errors) ←
        if hasHideSrc then do
          let (showRaw, _a) :=
            resolve_source (entry.hide_product_source.getD "") product attributesByCode []
          let showValue := match showRaw with | .vDict d => dictGet d "value" | v => v
          if ¬is_empty showValue then do
            let (showBool, errors) ←
              coerce_with_policy showValue "bool" entry.coerce none
                (plFieldName entry ++ "_hide") errors
            match showBool with
            | .vNone => pure (item, errors)
            | sb => pure (item ++ [("HideProduct", Value.vBool (!pyTruthy sb))], errors)
          else pure (item, errors)
        else pure (item, errors)
      .ok (items ++ [item], errors)

/-- `sync_engine._build_price_list_items`: one write entry per
configured price-list mapping. -/
def build_price_list_items (mapping : MappingConfig) (productNo : Value) (product : Dict)
    (attributesByCode : List (String × Dict)) (errors : List String) :
    Except String (List Dict × List String) :=
  mapping.price_lists.foldlM
    (fun (st : List Dict × List String) entry =>
      priceListEntryStep productNo product attributesByCode entry st.1 st.2)
    ([], errors)

/-- The attribute-root selector keys referenced anywhere in the mapping
(`mapping_loader._collect_sources` restricted to the `attributes` root;
the source sorts the set, but it is only ever used for membership). -/
def collectAttributeCodes (mapping : MappingConfig) : List String :=
  let addSource : Option String → List String := fun src =>
    match src with
    | some s =>
      if s = "" then []
      else
        let (root, key, _path) := parse_source_selector s
        match key with
        | some k => if (root = "attributes" ∨ root = "texts") ∧ root = "attributes" then [k] else []
        | none => []
    | none => []
  let fromSel : SourceSel → List String := fun sel =>
    addSource sel.source ++
      (match sel.source_by_culture with
       | some m => m.foldr (fun kv acc => addSource (some kv.2) ++ acc) []
       | none => [])
  (mapping.product_fields.foldr (fun e acc => fromSel e.sel ++ acc) []) ++
    (mapping.stock_fields.foldr (fun e acc => fromSel e.sel ++ acc) []) ++
    addSource (some mapping.category_fields.source) ++
    (mapping.dynamic_fields_allowlist.foldr (fun e acc => fromSel e.sel ++ acc) []) ++
    (mapping.price_lists.foldr
      (fun e acc =>
        addSource (some e.price_source) ++ addSource e.discounted_price_source ++
          addSource e.discount_period_source ++ addSource e.hide_product_source ++ acc)
      [])

/-- `dynamic_fields.setdefault(code, {})[culture] = value`. -/
def dynFieldsInsert : List (String × Dict) → String → String → Value → List (String × Dict)
  | [], code, culture, v => [(code, [(culture, v)])]
  | (k, d) :: rest, code, culture, v =>
    if k = code then (k, dictInsert d culture v) :: rest
    else (k, d) :: dynFieldsInsert rest code culture v

/-- The per-culture inner loop of `_apply_auto_dynamic_fields`. -/
def autoFieldsCultureLoop (entry : DynamicFieldMapping) (product : Dict)
    (attributesByCode textsByCode : List (String × Dict)) (mapping : MappingConfig)
    (code : String) : List String → List (String × Dict) → List String →
    Except String (List (String × Dict) × List String)
  | [], dynamicFields, errors => .ok (dynamicFields, errors)
  | culture :: rest, dynamicFields, errors => do
    let (mappedValue, errors') ←
      apply_dynamic_mapping entry product attributesByCode textsByCode mapping culture errors
    let dynamicFields' :=
      match mappedValue with
      | .vNone => dynamicFields
      | v => dynFieldsInsert dynamicFields code culture v
    autoFieldsCultureLoop entry product attributesByCode textsByCode mapping code rest
      dynamicFields' errors'

/-- The per-attribute outer loop of `_apply_auto_dynamic_fields`. Note
that `existing_keys` is captured once, before the loop starts, as in the
source. -/
def autoFieldsAttrLoop (autoConfig : AutoDynamicFieldConfig) (product : Dict)
    (attributesByCode textsByCode : List (String × Dict)) (mapping : MappingConfig)
    (mappedAttrs existingKeys : List String) :
    List (String × Dict) → List (String × Dict) → List String →
    Except String (List (String × Dict) × List String)
  | [], dynamicFields, errors => .ok (dynamicFields, errors)
  | (code, attributeObj) :: rest, dynamicFields, errors =>
    let skip := autoFieldsAttrLoop autoConfig product attributesByCode textsByCode mapping
      mappedAttrs existingKeys rest
    if code = "" ∨ mappedAttrs.contains code ∨ existingKeys.contains code then
      skip dynamicFields errors
    else if ¬autoConfig.allowed_keys.contains code then skip dynamicFields errors
    else
      let dataType := dictGet attributeObj "dataType"
      let includeTruthy :=
        match autoConfig.include_data_types with | some l => !l.isEmpty | none => false
      let dataTypeIncluded :=
        match autoConfig.include_data_types, dataType with
        | some l, .vStr s => l.contains s
        | _, _ => false
      if includeTruthy && !dataTypeIncluded then skip dynamicFields errors
      else
        let value := dictGet attributeObj "value"
        let valueIsList := match value with | .vList _ => true | _ => false
        if autoConfig.skip_range && pyTruthy (dictGet attributeObj "range") && valueIsList then
          skip dynamicFields errors
        else
          let isRegister :=
            match dataType with
            | .vStr s => s == "DATA_REGISTER" || s == "DATA_REGISTER_MULTI"
            | _ => false
          let (entryType, itemType, transforms) :=
            if isRegister then
              let (et, it) : String × Option String :=
                if valueIsList && autoConfig.type == "string" then ("list", some "string")
                else (autoConfig.type, none)
              (et, it, [TransformSpec.mk "data_register_label" (some autoConfig.join_delimiter)])
            else if valueIsList then
              let (et, it) : String × Option String :=
                if autoConfig.type == "string" then ("list", some "string")
                else (autoConfig.type, none)
              (et, it, [TransformSpec.mk "join_list" (some autoConfig.join_delimiter)])
            else (autoConfig.type, none, [])
          let entry : DynamicFieldMapping :=
            { key := code
              source := some ("attributes[" ++ code ++ "]")
              source_by_culture := none
              fallback_by_culture := none
              cultures := none
              fallback := none
              type := entryType
              item_type := itemType
              coerce := autoConfig.coerce
              transforms := transforms
              validations := Validations.empty
              optional := true
              allow_empty := false }
          do
            let (dynamicFields, errors) ←
              autoFieldsCultureLoop entry product attributesByCode textsByCode mapping code
                mapping.cultures dynamicFields errors
            skip dynamicFields errors

/-- `sync_engine._apply_auto_dynamic_fields`: synthesizes dynamic-field
mappings for allow-listed, not-yet-mapped attribute codes; with an empty
allow-list it returns immediately. -/
def apply_auto_dynamic_fields (autoConfig : AutoDynamicFieldConfig)
    (dynamicFields : List (String × Dict)) (product : Dict)
    (attributesByCode textsByCode : List (String × Dict)) (mapping : MappingConfig)
    (errors : List String) : Except String (List (String × Dict) × List String) :=
  let mappedAttrs := collectAttributeCodes mapping
  let existingKeys := dynamicFields.map (·.1)
  if autoConfig.allowed_keys.isEmpty then .ok (dynamicFields, errors)
  else
    autoFieldsAttrLoop autoConfig product attributesByCode textsByCode mapping
      mappedAttrs existingKeys attributesByCode dynamicFields errors

/-- `{attr["importCode"]: attr for attr in product.get("attributes", [])}`.
Later entries override earlier ones as in a Python dict comprehension.
The feed interface guarantees every attribute/text carries a string
`importCode` (spec §6); entries violating that would raise `KeyError`
in the source and are skipped here. -/
def indexByImportCode (items : Value) : List (String × Dict) :=
  match items with
  | .vList xs =>
    xs.foldl
      (fun acc item =>
        match item with
        | .vDict d =>
          match d.lookup "importCode" with
          | some (.vStr code) =>
            if (acc.lookup code).isSome then
              acc.map (fun kv => if kv.1 = code then (code, d) else kv)
            else acc ++ [(code, d)]
          | _ => acc
        | _ => acc)
      []
  | _ => []

/-- The tuple `SyncEngine._build_desired` returns. -/
structure BuildOut where
  desired_by_culture : List (String × Dict)
  stock_data : Dict
  categories : Option (List String)
  dynamic_fields : List (String × Dict)
  price_lists : List Dict
  errors : List String

/-- The product-field loop for one culture. -/
def buildFieldsLoop (product : Dict) (attributesByCode textsByCode : List (String × Dict))
    (mapping : MappingConfig) (culture : Option String) (allowNil : Bool) :
    List FieldMapping → Dict → List String → Except String (Dict × List String)
  | [], data, errors => .ok (data, errors)
  | entry :: rest, data, errors =>
    let cultureExcluded :=
      match entry.cultures, culture with
      | some cs, some c => !cs.isEmpty && !cs.contains c
      | _, _ => false
    if cultureExcluded then
      buildFieldsLoop product attributesByCode textsByCode mapping culture allowNil rest data errors
    else do
      let (value, errors) ←
        apply_mapping_entry entry product attributesByCode textsByCode mapping culture errors allowNil
      match value with
      | .vNone =>
        buildFieldsLoop product attributesByCode textsByCode mapping culture allowNil rest data errors
      | v =>
        buildFieldsLoop product attributesByCode textsByCode mapping culture allowNil rest
          (dictInsert data entry.target v) errors

/-- The per-culture outer loop building `desired_by_culture`. -/
def buildCulturesLoop (product : Dict) (attributesByCode textsByCode : List (String × Dict))
    (mapping : MappingConfig) (productNo : Value) :
    List String → List (String × Dict) → List String →
    Except String (List (String × Dict) × List String)
  | [], acc, errors => .ok (acc, errors)
  | culture :: rest, acc, errors => do
    let data : Dict := [("ArticleNumber", productNo), ("Culture", .vStr culture)]
    let (data, errors) ←
      buildFieldsLoop product attributesByCode textsByCode mapping (some culture) false
        mapping.product_fields data errors
    buildCulturesLoop product attributesByCode textsByCode mapping productNo rest
      (acc ++ [(culture, data)]) errors

/-- The loop over the declared dynamic-field allow-list. -/
def buildDynAllowLoop (product : Dict) (attributesByCode textsByCode : List (String × Dict))
    (mapping : MappingConfig) :
    List DynamicFieldMapping → List (String × Dict) → List String →
    Except String (List (String × Dict) × List String)
  | [], dynamicFields, errors => .ok (dynamicFields, errors)
  | entry :: rest, dynamicFields, errors => do
    let cultures :=
      match entry.cultures with
      | some cs => if cs.isEmpty then mapping.cultures else cs
      | none => mapping.cultures
    let (dynamicFields, errors) ←
      autoFieldsCultureLoop entry product attributesByCode textsByCode mapping entry.key
        cultures dynamicFields errors
    buildDynAllowLoop product attributesByCode textsByCode mapping rest dynamicFields errors

/-- `SyncEngine._build_desired`: per-culture product fields, stock
fields, category ids, per-culture dynamic fields and price-list
entries, with a shared accumulated error list. -/
def build_desired (mapping : MappingConfig) (product : Dict) (productNo : Value) :
    Except String BuildOut := do
  let attributesByCode := indexByImportCode (dictGetD product "attributes" (.vList []))
  let textsByCode := indexByImportCode (dictGetD product "texts" (.vList []))
  let errors : List String := []
  let (desiredByCulture, errors) ←
    buildCulturesLoop product attributesByCode textsByCode mapping productNo
      mapping.cultures [] errors
  let (stockData, errors) ←
    buildFieldsLoop product attributesByCode textsByCode mapping none true
      mapping.stock_fields [] errors
  let (categories, errors) ←
    extract_categories mapping.category_fields product attributesByCode errors
  let (dynamicFields, errors) ←
    buildDynAllowLoop product attributesByCode textsByCode mapping
      mapping.dynamic_fields_allowlist [] errors
  let (dynamicFields, errors) ←
    if mapping.dynamic_fields_auto_map.enabled then
      apply_auto_dynamic_fields mapping.dynamic_fields_auto_map dynamicFields product
        attributesByCode textsByCode mapping errors
    else pure (dynamicFields, errors)
  let (priceLists, errors) ←
    build_price_list_items mapping productNo product attributesByCode errors
  .ok ⟨desiredByCulture, stockData, categories, dynamicFields, priceLists, errors⟩

/-! ### `sync_engine.py` — the per-product orchestrator -/

/-- `sync_engine.ProductProcessResult`. -/
structure ProductProcessResult where
  product_no : Value
  action : String
  success : Bool
  errors : List String
  changes : Nat
  dynamic_changes : Nat

/-- `jetshop_client.ProductResult`. -/
structure ProductResult where
  article_number : String
  culture : String
  status : String
  success : Bool

/-- `jetshop_client.DynamicFieldResult`. -/
structure DynamicFieldResult where
  key : String
  success : Bool
  message : String
deriving DecidableEq

/-- A destination call issued by the orchestrator (read or write). -/
inductive CallEvent where
  | productGet (culture : String) (productNo : Value)
  | productAddUpdate (payloads : List Dict)
  | dynSave (inputs : List Dict)
  | priceListUpdate (items : List Dict)
  | productDelete (productNo : Value)

/-- The destination collaborator (`jetshop_client.JetshopClient`): a pure
oracle for each call; `.error` models a raised transport exception. -/
structure JetshopClient where
  product_get : String → Value → Except String (Option Dict)
  product_add_update : List Dict → Except String (List ProductResult)
  dyn_save : List Dict → Except String (List DynamicFieldResult)
  price_list_update : List Dict → Except String Unit
  product_delete : Value → Except String Unit
  template_id : Option String

/-- The feed collaborator (`feed_client`), specified at its interface. -/
structure FeedClient where
  fetch_products : String → Option String → Option Nat → List Dict

/-- `sync_engine._get_product_no`: `(product.get("identifier") or {})
.get("productNo")`; a truthy non-dict identifier would raise. -/
def get_product_no (product : Dict) : Except String Value :=
  let identifier := (let v := dictGet product "identifier"; if pyTruthy v then v else .vDict [])
  match identifier with
  | .vDict d => .ok (dictGet d "productNo")
  | _ => .error "AttributeError: identifier has no attribute get"

/-- `sync_engine._is_feed_deleted`: boolean or `"true"`-string markers,
top-level first, then nested under `productHead`. -/
def is_feed_deleted (product : Dict) : Except String Bool :=
  match dictGet product "deleted" with
  | .vBool b => .ok b
  | .vStr s => .ok (strToLower (pyStrip s) == "true")
  | _ =>
    let productHead :=
      (let v := dictGet product "productHead"; if pyTruthy v then v else .vDict [])
    match productHead with
    | .vDict d =>
      (match dictGet d "deleted" with
       | .vBool b => .ok b
       | .vStr s => .ok (strToLower (pyStrip s) == "true")
       | _ => .ok false)
    | _ => .error "AttributeError: productHead has no attribute get"

def strContainsAux (needle : List Char) : List Char → Bool
  | [] => needle.isEmpty
  | c :: rest => needle.isPrefixOf (c :: rest) || strContainsAux needle rest

/-- Substring containment (Python's `in` on strings). -/
def strContains (hay needle : String) : Bool :=
  strContainsAux needle.toList hay.toList

/-- `sync_engine._is_missing_dynamic_field`: the lowercased message must
contain BOTH `"no dynamic field"` and `"connected to product"`. -/
def is_missing_dynamic_field (message : String) : Bool :=
  if message = "" then false
  else
    let normalized := strToLower message
    strContains normalized "no dynamic field" && strContains normalized "connected to product"

/-- The dynamic-field failure handling of `SyncEngine._handle_update`
(lines 274–290): collect unsuccessful results, keep those whose message
marks a field not connected to this product as warnings, and raise for
the rest. Returns the raised message, if any. -/
def dynFailureOutcome (dynResults : List DynamicFieldResult) : Option String :=
  let dynFailures := dynResults.filter (fun r => !r.success)
  if dynFailures.isEmpty then none
  else
    let missing := dynFailures.filter (fun r => is_missing_dynamic_field r.message)
    let otherFailures := dynFailures.filter (fun r => !missing.contains r)
    if otherFailures.isEmpty then none
    else
      some ("Dynamic field save failed: " ++
        String.intercalate ", " (otherFailures.map (fun r => r.key ++ ":" ++ r.message)))

/-- `sync_engine._build_category_payload`. -/
def build_category_payload (categories removedCategories : List String) : List Value :=
  categories.map (fun categoryId => Value.vDict [("CategoryId", .vStr categoryId)]) ++
    removedCategories.map
      (fun categoryId =>
        Value.vDict
          [("CategoryId", .vStr categoryId),
           ("ProductInCategoryState", .vStr "DeleteConnection"),
           ("SortOrder", .vInt 0), ("IsCanonical", .vBool false)])

/-- `sync_engine._get_category_id`. -/
def get_category_id (item : Value) : Option String :=
  let categoryId := match item with | .vDict d => dictGet d "CategoryId" | v => v
  match categoryId with
  | .vNone => none
  | v => some (pyStr v)

/-- `sync_engine._build_dynamic_inputs`: one input per changed key with
all its per-culture values. -/
def build_dynamic_inputs (productNo : Value) (dynamicFields : List (String × Dict))
    (dynamicDiffs : List DiffItem) : List Dict :=
  let changedKeys := dynamicDiffs.map (·.target_field)
  dynamicFields.foldr
    (fun kd acc =>
      if changedKeys.contains kd.1 then
        let itemValues :=
          kd.2.map (fun cv => Value.vDict [("Culture", .vStr cv.1), ("Value", cv.2)])
        [("ArticleNumber", productNo), ("Key", .vStr kd.1),
         ("ItemValues", .vList itemValues)] :: acc
      else acc)
    []

/-- The destination snapshot fields the diff loops read hold lists and
dicts respectively; a non-container would make Python iterate something
else entirely, which the destination interface rules out. -/
def valueAsList : Value → List Value
  | .vList xs => xs
  | _ => []

def valueAsDict : Value → Dict
  | .vDict d => d
  | _ => []

/-- `current_by_culture.get(culture) or {}`. -/
def getCurrentCulture (currentByCulture : List (String × Dict)) (culture : String) : Dict :=
  match currentByCulture.lookup culture with
  | some d => d
  | none => []

/-- `SyncEngine._handle_delete`. -/
def handle_delete (jc : JetshopClient) (productNo : Value) (dryRun : Bool) :
    ProductProcessResult × List CallEvent :=
  if dryRun then (⟨productNo, "delete", true, [], 0, 0⟩, [])
  else
    match jc.product_delete productNo with
    | .ok _ => (⟨productNo, "delete", true, [], 0, 0⟩, [.productDelete productNo])
    | .error e => (⟨productNo, "delete", false, [e], 0, 0⟩, [.productDelete productNo])

/-- The per-culture current-state read loop (`product_get` per culture,
aborted by the first raised exception). -/
def readCultures (jc : JetshopClient) (productNo : Value) :
    List String → List (String × Dict) → List CallEvent →
    List CallEvent × Except String (List (String × Dict))
  | [], acc, trace => (trace, .ok acc)
  | culture :: rest, acc, trace =>
    match jc.product_get culture productNo with
    | .error e => (trace ++ [.productGet culture productNo], .error e)
    | .ok od =>
      readCultures jc productNo rest
        (acc ++ [(culture, match od with | some d => d | none => [])])
        (trace ++ [.productGet culture productNo])

/-- The write phase of `SyncEngine._handle_update` (the body of its
`try` block): product/category/stock update, dynamic-field save,
price-list update; any exception or reported failure aborts with the
message the `except` clause would record. -/
def writeSection (jc : JetshopClient) (mapping : MappingConfig) (b : BuildOut)
    (currentByCulture : List (String × Dict)) (categoriesPayload : Option (List Value))
    (productNo : Value) (diffs dynamicDiffs : List DiffItem) :
    List CallEvent × Except String Unit :=
  let step1 : List CallEvent × Except String Unit :=
    if diffs.isEmpty then ([], .ok ())
    else
      let stockResult : Except String Dict :=
        if !b.stock_data.isEmpty then
          match mapping.cultures with
          | [] => .error "IndexError: list index out of range"
          | c0 :: _ =>
            let currentStock :=
              valueAsDict (dictGetD (getCurrentCulture currentByCulture c0) "StockData" (.vDict []))
            .ok (["UseAdvancedStatus"].foldl
              (fun sp key =>
                if (sp.lookup key).isNone then
                  match dictGet currentStock key with
                  | .vNone => sp
                  | v => dictInsert sp key v
                else sp)
              b.stock_data)
        else .ok b.stock_data
      match stockResult with
      | .error e => ([], .error e)
      | .ok stockPayload =>
        let payloads := mapping.cultures.map
          (fun culture =>
            let payload :=
              match b.desired_by_culture.lookup culture with | some d => d | none => []
            let payload :=
              match categoriesPayload with
              | some cp => dictInsert payload "ProductInCategories" (.vList cp)
              | none => payload
            let payload :=
              if !stockPayload.isEmpty then dictInsert payload "StockData" (.vDict stockPayload)
              else payload
            match jc.template_id with
            | some t => if t ≠ "" then dictInsert payload "TemplateId" (.vStr t) else payload
            | none => payload)
        match jc.product_add_update payloads with
        | .error e => ([.productAddUpdate payloads], .error e)
        | .ok results =>
          let failures := results.filter (fun r => !r.success)
          if !failures.isEmpty then
            ([.productAddUpdate payloads],
             .error ("Product_AddUpdate failed: " ++
               String.intercalate ", " (failures.map (fun r => r.culture ++ ":" ++ r.status))))
          else ([.productAddUpdate payloads], .ok ())
  match step1 with
  | (t1, .error e) => (t1, .error e)
  | (t1, .ok _) =>
    let step2 : List CallEvent × Except String Unit :=
      if dynamicDiffs.isEmpty then ([], .ok ())
      else
        let inputs := build_dynamic_inputs productNo b.dynamic_fields dynamicDiffs
        match jc.dyn_save inputs with
        | .error e => ([.dynSave inputs], .error e)
        | .ok dynResults =>
          match dynFailureOutcome dynResults with
          | some msg => ([.dynSave inputs], .error msg)
          | none => ([.dynSave inputs], .ok ())
    match step2 with
    | (t2, .error e) => (t1 ++ t2, .error e)
    | (t2, .ok _) =>
      let step3 : List CallEvent × Except String Unit :=
        if b.price_lists.isEmpty then ([], .ok ())
        else
          match jc.price_list_update b.price_lists with
          | .ok _ => ([.priceListUpdate b.price_lists], .ok ())
          | .error e => ([.priceListUpdate b.price_lists], .error e)
      (t1 ++ t2 ++ step3.1, step3.2)

/-- `SyncEngine._handle_update`: build desired state (aborting to `skip`
on any accumulated error, before any destination call), read the current
snapshots, diff, and terminate at `no_change`, `dry_run` (the diff
artifact write is a local file, not a destination call) or `update`.
The returned trace lists the destination calls issued. -/
def handle_update (jc : JetshopClient) (mapping : MappingConfig) (product : Dict)
    (productNo : Value) (dryRun : Bool) :
    Except String (ProductProcessResult × List CallEvent) := do
  let b ← build_desired mapping product productNo
  match b.errors with
  | _ :: _ => .ok (⟨productNo, "skip", false, b.errors, 0, 0⟩, [])
  | [] =>
  let (trace, readResult) := readCultures jc productNo mapping.cultures [] []
  match readResult with
  | .error e => .ok (⟨productNo, "read_failed", false, [e], 0, 0⟩, trace)
  | .ok currentByCulture =>
  let currentDynamic : List (String × Dict) := []
  let diffs := mapping.cultures.foldl
    (fun acc culture =>
      let current := getCurrentCulture currentByCulture culture
      let desired :=
        match b.desired_by_culture.lookup culture with | some d => d | none => []
      let acc := acc ++ diff_product_data current desired (some culture)
      let acc := acc ++
        (match b.categories with
         | some cats =>
           diff_categories (valueAsList (dictGetD current "ProductInCategories" (.vList [])))
             (cats.map .vStr) (some culture)
         | none => [])
      acc ++ diff_stock (valueAsDict (dictGetD current "StockData" (.vDict []))) b.stock_data
        (some culture))
    []
  -- Lines 166–173 of the source compute a `removed_categories` that is
  -- immediately overwritten; their only observable effect is an
  -- `IndexError` on `cultures[0]` when the culture list is empty.
  if b.categories.isSome ∧ mapping.cultures.isEmpty then
    .error "IndexError: list index out of range"
  else
  let (categoriesPayload, _removedCategories) :=
    match b.categories with
    | none => (none, ([] : List String))
    | some cats =>
      let currentSet := mapping.cultures.foldl
        (fun (acc : List String) culture =>
          let cultureCategories :=
            valueAsList
              (dictGetD (getCurrentCulture currentByCulture culture) "ProductInCategories"
                (.vList []))
          cultureCategories.foldl
            (fun (acc2 : List String) item =>
              match get_category_id item with
              | none => acc2
              | some categoryId =>
                if acc2.contains categoryId then acc2 else acc2 ++ [categoryId])
            acc)
        []
      let removed :=
        (currentSet.filter (fun c => !cats.contains c)).mergeSort (· ≤ ·)
      (some (build_category_payload cats removed), removed)
  let dynamicDiffs := diff_dynamic_fields currentDynamic b.dynamic_fields
  if diffs.isEmpty && dynamicDiffs.isEmpty && b.price_lists.isEmpty then
    .ok (⟨productNo, "no_change", true, [], 0, 0⟩, trace)
  else if dryRun then
    .ok (⟨productNo, "dry_run", true, [], diffs.length, dynamicDiffs.length⟩, trace)
  else
    match writeSection jc mapping b currentByCulture categoriesPayload productNo diffs
        dynamicDiffs with
    | (wtrace, .ok _) =>
      .ok (⟨productNo, "update", true, [], diffs.length, dynamicDiffs.length⟩, trace ++ wtrace)
    | (wtrace, .error msg) =>
      .ok (⟨productNo, "update", false, [msg], diffs.length, dynamicDiffs.length⟩,
           trace ++ wtrace)

/-- The per-run outcome counters of `SyncEngine.sync`. -/
structure Counts where
  processed : Nat
  updated : Nat
  deleted : Nat
  skipped : Nat
  failed : Nat
  no_change : Nat

/-- The run report of `SyncEngine.sync` (the wall-clock timestamps are
omitted: they carry no engine state). -/
structure SyncReport where
  exportFrom : String
  dryRun : Bool
  counts : Counts
  products : List ProductProcessResult

/-- The per-product loop of `SyncEngine.sync`. -/
def syncLoop (jc : JetshopClient) (mapping : MappingConfig) (dryRun : Bool) :
    List Dict → List ProductProcessResult → Counts → List CallEvent →
    Except String (List ProductProcessResult × Counts × List CallEvent)
  | [], results, counts, trace => .ok (results, counts, trace)
  | product :: rest, results, counts, trace => do
    let productNoValue ← get_product_no product
    let counts := { counts with processed := counts.processed + 1 }
    if !pyTruthy productNoValue then
      syncLoop jc mapping dryRun rest
        (results ++ [⟨.vStr "", "skip", false, ["Missing productNo"], 0, 0⟩])
        { counts with failed := counts.failed + 1 } trace
    else do
      -- `_log_unmapped` only logs; it has no engine-state effect.
      let actionIsDelete :=
        match dictGet product "action" with | .vStr s => s == "Delete" | _ => false
      let isDelete ← if actionIsDelete then pure true else is_feed_deleted product
      if isDelete then
        let (result, t) := handle_delete jc productNoValue dryRun
        let counts :=
          if result.success then { counts with deleted := counts.deleted + 1 }
          else { counts with failed := counts.failed + 1 }
        syncLoop jc mapping dryRun rest (results ++ [result]) counts (trace ++ t)
      else do
        let (result, t) ← handle_update jc mapping product productNoValue dryRun
        let counts :=
          if !result.success then { counts with failed := counts.failed + 1 }
          else if result.action = "no_change" then
            { counts with no_change := counts.no_change + 1 }
          else { counts with updated := counts.updated + 1 }
        syncLoop jc mapping dryRun rest (results ++ [result]) counts (trace ++ t)

/-- `SyncEngine.sync`: process the fetched batch and advance the
checkpoint (`state_store.write_now`) exactly when the final failed
count is zero. The returned `Bool` records whether the checkpoint was
advanced. -/
def sync (fc : FeedClient) (jc : JetshopClient) (mapping : MappingConfig)
    (exportFrom : String) (productNo : Option String) (limit : Option Nat) (dryRun : Bool) :
    Except String (SyncReport × Bool) := do
  let (results, counts, _trace) ←
    syncLoop jc mapping dryRun (fc.fetch_products exportFrom productNo limit) []
      ⟨0, 0, 0, 0, 0, 0⟩ []
  let report : SyncReport := ⟨exportFrom, dryRun, counts, results⟩
  .ok (report, counts.failed == 0)

/-! ### Spec-side definitions and well-formedness predicates -/

/-- Localization resolution as worded by the specification: return the
value of the first candidate key that is present in the value map with a
non-empty value, else absent. (Definition follows the spec's words, for
comparison against `select_localized`.) -/
def selectLocalizedSpec (value : Dict) : List (Option String) → Value
  | [] => .vNone
  | c :: rest =>
    match pickLocalized value c with
    | some v => v
    | none => selectLocalizedSpec value rest

def keysNodup : List String → Bool
  | [] => true
  | k :: ks => ks.all (fun k' => k' ≠ k) && keysNodup ks

mutual

/-- Well-formedness of a modelled value as a Python runtime value: every
dict (at any depth) has unique keys. Python dicts guarantee this. -/
def valueWF : Value → Bool
  | .vList xs => valueListWF xs
  | .vDict d => keysNodup (d.map (·.1)) && valueEntriesWF d
  | _ => true

def valueListWF : List Value → Bool
  | [] => true
  | x :: xs => valueWF x && valueListWF xs

def valueEntriesWF : List (String × Value) → Bool
  | [] => true
  | kv :: rest => valueWF kv.2 && valueEntriesWF rest

end

/-- A snapshot dict as produced by Python: unique keys, well-formed values. -/
def dictWF (d : Dict) : Bool :=
  keysNodup (d.map (·.1)) && valueEntriesWF d

/-- A dynamic-fields map (key → culture → value) as produced by Python. -/
def dynWF (dyn : List (String × Dict)) : Bool :=
  keysNodup (dyn.map (·.1)) && dyn.all (fun kd => dictWF kd.2)

/-- The number of failed products in a result list. -/
def countFailed (results : List ProductProcessResult) : Nat :=
  (results.filter (fun r => !r.success)).length

/-! ### Concrete fixtures for witnesses and counterexamples -/

/-- A destination stub that answers every call successfully. -/
def sampleClient : JetshopClient :=
  { product_get := fun _ _ => .ok none
    product_add_update := fun _ => .ok []
    dyn_save := fun _ => .ok []
    price_list_update := fun _ => .ok ()
    product_delete := fun _ => .ok ()
    template_id := none }

def sampleCategoryMapping : CategoryMapping :=
  { source := "attributes[jetshop_category_mp]", type := "list", item_type := some "string"
    coerce := "coerce", strategy := "replace", optional := true }

def sampleAutoConfig : AutoDynamicFieldConfig :=
  { enabled := false, coerce := "coerce", type := "string", include_data_types := none
    join_delimiter := ", ", skip_range := true, allowed_keys := [] }

/-- A minimal single-culture mapping configuration. -/
def sampleMapping : MappingConfig :=
  { version := 1, cultures := ["sv-SE"], fallbacks := [], culture_map := [("sv-SE", "sv")]
    product_fields := [], stock_fields := [], category_fields := sampleCategoryMapping
    dynamic_fields_auto_map := sampleAutoConfig, dynamic_fields_allowlist := []
    price_lists := [] }

/-- A required string product-field mapping reading `attributes[x]`. -/
def requiredNameEntry : FieldMapping :=
  { target := "Name", source := some "attributes[x]", source_by_culture := none
    fallback_by_culture := none, cultures := none, fallback := none, type := "string"
    item_type := none, coerce := "strict", transforms := [], validations := Validations.empty
    optional := false, preserve_if_missing := false, allow_empty := false }

/-- The same entry declared as a list field. -/
def requiredListEntry : FieldMapping := { requiredNameEntry with type := "list" }

/-- The same entry marked optional. -/
def optionalNameEntry : FieldMapping := { requiredNameEntry with optional := true }

/-- A product without the attribute `x` at all. -/
def bareProduct : Dict := [("identifier", .vDict [("productNo", .vStr "P1")])]

/-- A product whose attribute `x` is present but carries no `value`. -/
def removedValueProduct : Dict :=
  [("identifier", .vDict [("productNo", .vStr "P1")]),
   ("attributes", .vList [.vDict [("importCode", .vStr "x"), ("dataType", .vStr "FLOAT")]])]

def removedValueAttrs : List (String × Dict) :=
  indexByImportCode (dictGetD removedValueProduct "attributes" (.vList []))

/-- Mapping whose only product field is the required `Name` entry. -/
def skipMapping : MappingConfig := { sampleMapping with product_fields := [requiredNameEntry] }

/-- The build outcome for `bareProduct` under `skipMapping`. -/
def skipBuild : BuildOut :=
  { desired_by_culture := [("sv-SE", [("ArticleNumber", .vStr "P1"), ("Culture", .vStr "sv-SE")])]
    stock_data := [], categories := none, dynamic_fields := [], price_lists := []
    errors := ["Name: missing required value"] }

/-- The C3 scenario: clear-on-missing price list with a configured hide
source, discount and show attributes both absent from the product. -/
def hidePriceListEntry : PriceListMapping :=
  { name := none, price_list_id := "PL1", price_source := "attributes[price]"
    discounted_price_source := some "attributes[disc]", discount_period_source := none
    hide_product_source := some "attributes[show]", clear_discount_on_missing := true
    type := "int", coerce := "coerce", optional := false }

def hidePriceProduct : Dict :=
  [("identifier", .vDict [("productNo", .vStr "P1")]),
   ("attributes", .vList [.vDict [("importCode", .vStr "price"), ("value", .vInt 100)]])]

def hidePriceAttrs : List (String × Dict) :=
  indexByImportCode (dictGetD hidePriceProduct "attributes" (.vList []))

def hidePriceMapping : MappingConfig := { sampleMapping with price_lists := [hidePriceListEntry] }

/-- The C4 scenario: one optional dynamic field whose destination save
fails with a "not connected to product" message lacking the
"no dynamic field" marker the code requires. -/
def sampleDynEntry : DynamicFieldMapping :=
  { key := "k", source := some "attributes[d]", source_by_culture := none
    fallback_by_culture := none, cultures := none, fallback := none, type := "string"
    item_type := none, coerce := "coerce", transforms := [], validations := Validations.empty
    optional := true, allow_empty := false }

def dynMapping : MappingConfig := { sampleMapping with dynamic_fields_allowlist := [sampleDynEntry] }

def dynProduct : Dict :=
  [("identifier", .vDict [("productNo", .vStr "P1")]),
   ("attributes", .vList [.vDict [("importCode", .vStr "d"), ("value", .vStr "v")]])]

/-- Destination stub whose snapshot already matches the desired product
fields, so that only the dynamic field differs, and whose dynamic-field
save reports a failure with the given message. -/
def dynFailClient (message : String) : JetshopClient :=
  { sampleClient with
    product_get := fun culture _p =>
      .ok (some [("ArticleNumber", .vStr "P1"), ("Culture", .vStr culture)])
    dyn_save := fun _ => .ok [⟨"k", false, message⟩] }

/-- The dynamic-field save input the engine issues in the C4 scenario. -/
def dynSaveInput : Dict :=
  [("ArticleNumber", .vStr "P1"), ("Key", .vStr "k"),
   ("ItemValues", .vList [.vDict [("Culture", .vStr "sv-SE"), ("Value", .vStr "v")]])]

/-- A feed returning a single empty product document (no identifier). -/
def missingNoFeed : FeedClient := ⟨fun _ _ _ => [[]]⟩

/-- A product with unmapped attributes, for the C10 witness. -/
def autoWitnessConfig : AutoDynamicFieldConfig := { sampleAutoConfig with enabled := true }

/-! ### Theorems -/

/-- C5 counterexample: the diff engine does NOT equate a current integer
`10` with a desired string `"10.0000"` (nor vice versa): `_normalize`
turns `int`/`float` into `Decimal` but leaves strings untouched, so the
pair produces a diff item in both directions, contrary to the claim. -/
theorem diff_int_vs_decimal_string_emits_item :
    diff_product_data [("Price", .vInt 10)] [("Price", .vStr "10.0000")] none =
      [⟨"Price", .vInt 10, .vStr "10.0000", none, some "ProductData"⟩] ∧
    diff_product_data [("Price", .vStr "10.0000")] [("Price", .vInt 10)] none =
      [⟨"Price", .vStr "10.0000", .vInt 10, none, some "ProductData"⟩] :=
  ⟨rfl, rfl⟩

/-- C5 (amended): normalization maps `int`/`float` to exact `Decimal`s
(so numeric `10` and `10.0` compare equal) and maps `Decimal` to the
fixed 4-digit string (so a `Decimal` `10` equals the string
`"10.0000"`, at either side); but an `int` `10` against the string
`"10.0000"` is not equal and yields a diff item. -/
theorem normalize_numeric_equality_shape :
    diff_product_data [("Price", .vInt 10)] [("Price", .vFloat 10 0)] none = [] ∧
    diff_product_data [("Price", .vFloat 100 1)] [("Price", .vInt 10)] none = [] ∧
    diff_product_data [("Price", .vDec 10 0)] [("Price", .vStr "10.0000")] none = [] ∧
    diff_product_data [("Price", .vStr "10.0000")] [("Price", .vDec 100 1)] none = [] ∧
    diff_product_data [("Price", .vInt 10)] [("Price", .vStr "10.0000")] none =
      [⟨"Price", .vInt 10, .vStr "10.0000", none, some "ProductData"⟩] :=
  ⟨rfl, rfl, rfl, rfl, rfl⟩

/-- C7 counterexample: under the lenient policy, a boolean IS accepted
where a float is expected — `coerce_value(True, "float", "coerce")`
returns `1.0` instead of raising. -/
theorem bool_accepted_for_float_lenient :
    coerce_value (.vBool true) "float" "coerce" none = .ok (.vFloat 1 0) ∧
    coerce_value (.vBool false) "float" "coerce" none = .ok (.vFloat 0 0) :=
  ⟨rfl, rfl⟩

/-- C7 (amended): a boolean is rejected where an int is expected under
every policy (the explicit `bool` guard precedes the policy check), and
rejected where a float is expected under the strict policy; under the
lenient policy a boolean coerces to the float `1.0`/`0.0`. -/
theorem bool_int_float_coercion_policy (b : Bool) (policy : String) :
    coerce_value (.vBool b) "int" policy none =
      .error (.vErr ⟨"int", "bool is not int"⟩) ∧
    coerce_value (.vBool b) "float" "strict" none =
      .error (.vErr ⟨"float", "expected float, got bool"⟩) ∧
    coerce_value (.vBool b) "float" "coerce" none =
      .ok (.vFloat (if b then 1 else 0) 0) := by
  refine ⟨rfl, rfl, ?_⟩
  cases b <;> rfl

/-- C3: evaluating `_build_price_list_items` at the claimed scenario —
`clear_discount_on_missing=true`, a configured `hide_product_source`,
discount and show attributes both absent — shows the entry carries the
discount sentinel `DiscountedPriceIncVat = -1` but NO `HideProduct` key
at all, while the repository's own test
(`test_sync_engine_missing_show_flag_hides_product`) and the spec demand
`HideProduct=true`. -/
theorem missing_show_source_leaves_hide_product_unset :
    build_price_list_items hidePriceMapping (.vStr "P1") hidePriceProduct hidePriceAttrs [] =
      .ok ([[("ArticleNumber", .vStr "P1"), ("PriceListId", .vStr "PL1"),
             ("PriceIncVat", .vInt 100), ("DiscountedPriceIncVat", .vInt (-1))]], []) ∧
    List.lookup "HideProduct"
      [("ArticleNumber", Value.vStr "P1"), ("PriceListId", .vStr "PL1"),
       ("PriceIncVat", .vInt 100), ("DiscountedPriceIncVat", .vInt (-1))] = none :=
  ⟨rfl, rfl⟩

/-- C6 counterexample: a required string field whose `attributes[x]`
selector finds no attribute at all resolves to an omission plus a
mapping error — not to the empty string the claim promises. -/
theorem absent_attribute_required_string_errors :
    apply_mapping_entry requiredNameEntry bareProduct [] [] skipMapping (some "sv-SE") [] false =
      .ok (.vNone, ["Name: missing required value"]) ∧
    apply_mapping_entry requiredListEntry bareProduct [] [] skipMapping (some "sv-SE") [] false =
      .ok (.vNone, ["Name: missing required value"]) :=
  ⟨rfl, rfl⟩

/-- C4 counterexample: a destination dynamic-field failure whose message
contains "not connected to product" (but not the "no dynamic field"
marker `_is_missing_dynamic_field` also requires) DOES mark the product
as failed. -/
theorem not_connected_message_still_marks_failed :
    strContains "field x not connected to product" "not connected to product" = true ∧
    handle_update (dynFailClient "field x not connected to product") dynMapping dynProduct
        (.vStr "P1") false =
      .ok (⟨.vStr "P1", "update", false,
            ["Dynamic field save failed: k:field x not connected to product"], 0, 1⟩,
           [.productGet "sv-SE" (.vStr "P1"), .dynSave [dynSaveInput]]) :=
  ⟨rfl, rfl⟩

theorem valueEntriesWF_mem {d : List (String × Value)} (h : valueEntriesWF d = true)
    {kv : String × Value} (hkv : kv ∈ d) : valueWF kv.2 = true := by
  induction d with
  | nil => cases hkv
  | cons hd tl ih =>
    have h' : valueWF hd.2 = true ∧ valueEntriesWF tl = true := by
      simpa [valueEntriesWF, Bool.and_eq_true] using h
    rcases List.mem_cons.mp hkv with heq | htl
    · exact heq ▸ h'.1
    · exact ih h'.2 htl

theorem lookup_of_keysNodup {α : Type} :
    ∀ (d : List (String × α)) (k : String) (v : α),
      keysNodup (d.map (·.1)) = true → (k, v) ∈ d → List.lookup k d = some v := by
  intro d
  induction d with
  | nil => intro k v _ hm; cases hm
  | cons hd tl ih =>
    intro k v hnd hm
    have hnd' : (∀ k' ∈ tl.map (·.1), k' ≠ hd.1) ∧ keysNodup (tl.map (·.1)) = true := by
      simpa [keysNodup, List.all_eq_true, Bool.and_eq_true] using hnd
    rcases List.mem_cons.mp hm with heq | htl
    · have h1 : k = hd.1 := congrArg Prod.fst heq
      have h2 : v = hd.2 := congrArg Prod.snd heq
      subst h1; subst h2
      simp [List.lookup]
    · have hk : k ≠ hd.1 :=
        hnd'.1 k (List.mem_map_of_mem (·.1) htl)
      have : (k == hd.1) = false := beq_eq_false_iff_ne.mpr hk
      simp [List.lookup, this]
      exact ih k v hnd'.2 htl

mutual

theorem pyValueEq_refl : ∀ (v : Value), valueWF v = true → pyValueEq v v = true
  | .vNone, _ => by simp [pyValueEq, numVal]
  | .vBool b, _ => by simp [pyValueEq, numVal, decEqB]
  | .vInt n, _ => by simp [pyValueEq, numVal, decEqB]
  | .vFloat n s, _ => by simp [pyValueEq, numVal, decEqB]
  | .vStr s, _ => by simp [pyValueEq, numVal]
  | .vDec n s, _ => by simp [pyValueEq, numVal, decEqB]
  | .vDate s, _ => by simp [pyValueEq, numVal]
  | .vDatetime s, _ => by simp [pyValueEq, numVal]
  | .vNil, _ => by simp [pyValueEq, numVal]
  | .vList xs, h => by
    have hl := pyListEq_refl xs (by simpa [valueWF] using h)
    simp [pyValueEq, numVal, hl]
  | .vDict d, h => by
    have hWF : keysNodup (d.map (·.1)) = true ∧ valueEntriesWF d = true := by
      simpa [valueWF, Bool.and_eq_true] using h
    have hsub := pyDictSub_of_lookup d d
      (fun kv hkv => lookup_of_keysNodup d kv.1 kv.2 hWF.1 hkv) hWF.2
    simp [pyValueEq, numVal, hsub]

theorem pyListEq_refl : ∀ (xs : List Value), valueListWF xs = true → pyListEq xs xs = true
  | [], _ => by simp [pyListEq]
  | x :: xs, h => by
    have h' : valueWF x = true ∧ valueListWF xs = true := by
      simpa [valueListWF, Bool.and_eq_true] using h
    simp [pyListEq, pyValueEq_refl x h'.1, pyListEq_refl xs h'.2]

theorem pyDictSub_of_lookup : ∀ (d1 : List (String × Value)) (d : Dict),
    (∀ kv ∈ d1, List.lookup kv.1 d = some kv.2) → valueEntriesWF d1 = true →
    pyDictSub d1 d = true
  | [], _, _, _ => by simp [pyDictSub]
  | kv :: rest, d, hl, hwf => by
    have h' : valueWF kv.2 = true ∧ valueEntriesWF rest = true := by
      simpa [valueEntriesWF, Bool.and_eq_true] using hwf
    have hk := hl kv (List.mem_cons_self _ _)
    have hrest := pyDictSub_of_lookup rest d
      (fun kv' h'' => hl kv' (List.mem_cons_of_mem _ h'')) h'.2
    simp [pyDictSub, hk, pyValueEq_refl kv.2 h'.1, hrest]

end

theorem valueWF_normalize (v : Value) (h : valueWF v = true) : valueWF (normalize v) = true := by
  cases v <;> simp_all [normalize, valueWF]

/-- The diff equality is reflexive on well-formed values. -/
theorem pyValueEq_norm_refl (v : Value) (h : valueWF v = true) :
    pyValueEq (normalize v) (normalize v) = true :=
  pyValueEq_refl (normalize v) (valueWF_normalize v h)

theorem diff_product_data_eq_nil (X : Dict) (c : Option String) :
    ∀ (d : List (String × Value)),
      (∀ kv ∈ d, List.lookup kv.1 X = some kv.2 ∧ valueWF kv.2 = true) →
      diff_product_data X d c = []
  | [], _ => rfl
  | kv :: rest, h => by
    have hkv := h kv (List.mem_cons_self _ _)
    have hrest := diff_product_data_eq_nil X c rest
      (fun kv' h' => h kv' (List.mem_cons_of_mem _ h'))
    have hget : dictGet X kv.1 = kv.2 := by simp [dictGet, hkv.1]
    have step : diff_product_data X (kv :: rest) c =
        (if kv.1 = "ProductInCategories" ∨ kv.1 = "StockData" then diff_product_data X rest c
         else if pyValueEq (normalize (dictGet X kv.1)) (normalize kv.2) then
           diff_product_data X rest c
         else ⟨kv.1, dictGet X kv.1, kv.2, c, some "ProductData"⟩ ::
           diff_product_data X rest c) := rfl
    by_cases hskip : kv.1 = "ProductInCategories" ∨ kv.1 = "StockData"
    · rw [step, hrest]; simp [hskip]
    · rw [step, hrest, hget]
      simp [hskip, pyValueEq_norm_refl kv.2 hkv.2]

theorem diff_stock_eq_nil (X : Dict) (c : Option String) :
    ∀ (d : List (String × Value)),
      (∀ kv ∈ d, List.lookup kv.1 X = some kv.2 ∧ valueWF kv.2 = true) →
      diff_stock X d c = []
  | [], _ => rfl
  | kv :: rest, h => by
    have hkv := h kv (List.mem_cons_self _ _)
    have hrest := diff_stock_eq_nil X c rest
      (fun kv' h' => h kv' (List.mem_cons_of_mem _ h'))
    have hget : dictGet X kv.1 = kv.2 := by simp [dictGet, hkv.1]
    have step : diff_stock X (kv :: rest) c =
        (if pyValueEq (normalize (dictGet X kv.1)) (normalize kv.2) then diff_stock X rest c
         else ⟨kv.1, dictGet X kv.1, kv.2, c, some "StockData"⟩ :: diff_stock X rest c) := rfl
    rw [step, hrest, hget]
    simp [pyValueEq_norm_refl kv.2 hkv.2]

theorem diff_categories_self (cats : List Value) (c : Option String) :
    diff_categories cats cats c = [] := by
  unfold diff_categories
  simp

theorem dyn_inner_fold_eq (k : String) (dd : Dict) :
    ∀ (entries : List (String × Value)) (acc : List DiffItem),
      (∀ cv ∈ entries, List.lookup cv.1 dd = some cv.2 ∧ valueWF cv.2 = true) →
      entries.foldr
        (fun (cv : String × Value) acc' =>
          if pyValueEq (normalize (dictGet dd cv.1)) (normalize cv.2) then acc'
          else ⟨k, dictGet dd cv.1, cv.2, some cv.1, some "DynamicFields"⟩ :: acc')
        acc = acc := by
  intro entries
  induction entries with
  | nil => intro acc _; rfl
  | cons cv rest ih =>
    intro acc h
    have hcv := h cv (List.mem_cons_self _ _)
    have hget : dictGet dd cv.1 = cv.2 := by simp [dictGet, hcv.1]
    simp only [List.foldr_cons, ih acc (fun cv' h' => h cv' (List.mem_cons_of_mem _ h')),
      hget, pyValueEq_norm_refl cv.2 hcv.2, if_true]

theorem diff_dynamic_fields_eq_nil (current : List (String × Dict)) :
    ∀ (d : List (String × Dict)),
      (∀ kd ∈ d, List.lookup kd.1 current = some kd.2 ∧ dictWF kd.2 = true) →
      diff_dynamic_fields current d = []
  | [], _ => rfl
  | kd :: rest, h => by
    have hkd := h kd (List.mem_cons_self _ _)
    have hrest := diff_dynamic_fields_eq_nil current rest
      (fun kd' h' => h kd' (List.mem_cons_of_mem _ h'))
    have hwf : keysNodup (kd.2.map (·.1)) = true ∧ valueEntriesWF kd.2 = true := by
      simpa [dictWF, Bool.and_eq_true] using hkd.2
    have step : diff_dynamic_fields current (kd :: rest) =
        kd.2.foldr
          (fun (cv : String × Value) acc' =>
            let currentValue :=
              match current.lookup kd.1 with
              | some d => dictGet d cv.1
              | none => .vNone
            if pyValueEq (normalize currentValue) (normalize cv.2) then acc'
            else ⟨kd.1, currentValue, cv.2, some cv.1, some "DynamicFields"⟩ :: acc')
          (diff_dynamic_fields current rest) := rfl
    rw [step, hrest]
    have hinner : ∀ cv ∈ kd.2, List.lookup cv.1 kd.2 = some cv.2 ∧ valueWF cv.2 = true :=
      fun cv hcv =>
        ⟨lookup_of_keysNodup kd.2 cv.1 cv.2 hwf.1 (by simpa using hcv),
         valueEntriesWF_mem hwf.2 hcv⟩
    simpa only [hkd.1] using dyn_inner_fold_eq kd.1 kd.2 kd.2 [] hinner

theorem selectLocalizedSpec_cons (value : Dict) (c : Option String)
    (rest : List (Option String)) :
    selectLocalizedSpec value (c :: rest) =
      (match pickLocalized value c with
       | some v => v
       | none => selectLocalizedSpec value rest) := rfl

/-- C8: `_select_localized` returns the value of the first candidate key
— in the order feed-language of the culture, the raw culture, the
feed-language of the fallback culture, the raw fallback culture —
present in the map with a non-empty value (present-but-empty candidates
are skipped by `pickLocalized`), and `vNone` (absent) when no candidate
matches; the fallback culture is the explicit override when truthy, else
the mapping's per-culture fallback. -/
theorem select_localized_matches_spec_order (value : Dict) (mapping : MappingConfig)
    (culture : String) (fallback : Option String) :
    select_localized value mapping culture fallback =
      selectLocalizedSpec value
        [mapping.culture_map.lookup culture, some culture,
         feedLanguageOf mapping (pyOrStr fallback (mapping.fallbacks.lookup culture)),
         pyOrStr fallback (mapping.fallbacks.lookup culture)] := by
  unfold select_localized
  simp only [selectLocalizedSpec_cons]
  rfl

/-- C9: diffing any well-formed snapshot against itself yields the empty
diff list in every section — product data, categories, stock and
dynamic fields. Well-formedness states what Python dicts guarantee:
unique keys at every nesting depth. -/
theorem diff_self_empty_all_sections (pd : Dict) (cats : List Value) (stock : Dict)
    (dyn : List (String × Dict)) (culture : Option String)
    (hpd : dictWF pd = true) (hstock : dictWF stock = true) (hdyn : dynWF dyn = true) :
    diff_product_data pd pd culture = [] ∧ diff_categories cats cats culture = [] ∧
    diff_stock stock stock culture = [] ∧ diff_dynamic_fields dyn dyn = [] := by
  have hpd' : keysNodup (pd.map (·.1)) = true ∧ valueEntriesWF pd = true := by
    simpa [dictWF, Bool.and_eq_true] using hpd
  have hstock' : keysNodup (stock.map (·.1)) = true ∧ valueEntriesWF stock = true := by
    simpa [dictWF, Bool.and_eq_true] using hstock
  have hdyn' : keysNodup (dyn.map (·.1)) = true ∧ ∀ kd ∈ dyn, dictWF kd.2 = true := by
    simpa [dynWF, Bool.and_eq_true, List.all_eq_true] using hdyn
  refine ⟨diff_product_data_eq_nil pd culture pd ?_, diff_categories_self cats culture,
          diff_stock_eq_nil stock culture stock ?_, diff_dynamic_fields_eq_nil dyn dyn ?_⟩
  · intro kv hkv
    exact ⟨lookup_of_keysNodup pd kv.1 kv.2 hpd'.1 (by simpa using hkv),
           valueEntriesWF_mem hpd'.2 hkv⟩
  · intro kv hkv
    exact ⟨lookup_of_keysNodup stock kv.1 kv.2 hstock'.1 (by simpa using hkv),
           valueEntriesWF_mem hstock'.2 hkv⟩
  · intro kd hkd
    exact ⟨lookup_of_keysNodup dyn kd.1 kd.2 hdyn'.1 (by simpa using hkd), hdyn'.2 kd hkd⟩

/-- Witness for C9 at a concrete snapshot. -/
theorem diff_self_empty_all_sections_witness :
    diff_product_data [("A", .vStr "x"), ("B", .vInt 1)] [("A", .vStr "x"), ("B", .vInt 1)]
        (some "sv-SE") = [] ∧
    diff_categories [.vStr "1", .vStr "2"] [.vStr "1", .vStr "2"] (some "sv-SE") = [] ∧
    diff_stock [("S", .vInt 5)] [("S", .vInt 5)] (some "sv-SE") = [] ∧
    diff_dynamic_fields [("k", [("sv-SE", .vStr "v")])] [("k", [("sv-SE", .vStr "v")])] = [] :=
  diff_self_empty_all_sections [("A", .vStr "x"), ("B", .vInt 1)] [.vStr "1", .vStr "2"]
    [("S", .vInt 5)] [("k", [("sv-SE", .vStr "v")])] (some "sv-SE") (by rfl) (by rfl) (by rfl)

theorem except_bind_ok {ε α β : Type} (a : α) (f : α → Except ε β) :
    (Except.ok a : Except ε α) >>= f = f a := rfl

theorem except_bind_err {ε α β : Type} (e : ε) (f : α → Except ε β) :
    (Except.error e : Except ε α) >>= f = .error e := rfl

/-- C2: when the Desired-State Builder accumulates at least one error,
`_handle_update` returns the `skip` outcome with `success = false`
carrying those errors, and the destination trace is empty — no
`product_get` read and no write of any kind is issued. -/
theorem mapping_errors_skip_before_destination_io (jc : JetshopClient)
    (mapping : MappingConfig) (product : Dict) (productNo : Value) (dryRun : Bool)
    (b : BuildOut) (hb : build_desired mapping product productNo = .ok b)
    (hne : b.errors ≠ []) :
    handle_update jc mapping product productNo dryRun =
      .ok (⟨productNo, "skip", false, b.errors, 0, 0⟩, []) := by
  unfold handle_update
  rw [hb, except_bind_ok]
  cases herr : b.errors with
  | nil => exact absurd herr hne
  | cons e es => simp [herr]

/-- Witness for C2: a required field with no source attribute makes the
builder error, and the update handler skips with an empty call trace. -/
theorem mapping_errors_skip_before_destination_io_witness :
    handle_update sampleClient skipMapping bareProduct (.vStr "P1") false =
      .ok (⟨.vStr "P1", "skip", false, ["Name: missing required value"], 0, 0⟩, []) :=
  mapping_errors_skip_before_destination_io sampleClient skipMapping bareProduct (.vStr "P1")
    false skipBuild rfl (by simp [skipBuild])

/-- C10: with an empty `allowed_keys` allow-list, auto-discovery
synthesizes nothing and returns the dynamic-fields map and error list
unchanged — for every product, configuration and mapping, in particular
when auto-discovery is enabled and unmapped attributes exist. -/
theorem empty_allowlist_auto_map_no_op (autoConfig : AutoDynamicFieldConfig)
    (dynamicFields : List (String × Dict)) (product : Dict)
    (attrs texts : List (String × Dict)) (mapping : MappingConfig) (errors : List String)
    (h : autoConfig.allowed_keys = []) :
    apply_auto_dynamic_fields autoConfig dynamicFields product attrs texts mapping errors =
      .ok (dynamicFields, errors) := by
  simp [apply_auto_dynamic_fields, h]

/-- Witness for C10: enabled auto-discovery, a product with an unmapped
attribute, empty allow-list — the dynamic-fields map stays empty. -/
theorem empty_allowlist_auto_map_no_op_witness :
    apply_auto_dynamic_fields autoWitnessConfig [] dynProduct
      (indexByImportCode (dictGetD dynProduct "attributes" (.vList []))) [] sampleMapping [] =
      .ok ([], []) :=
  empty_allowlist_auto_map_no_op autoWitnessConfig [] dynProduct
    (indexByImportCode (dictGetD dynProduct "attributes" (.vList []))) [] sampleMapping [] rfl

theorem countFailed_append_one (results : List ProductProcessResult)
    (r : ProductProcessResult) :
    countFailed (results ++ [r]) = countFailed results + (if r.success then 0 else 1) := by
  cases hr : r.success <;> simp [countFailed, List.filter_append, hr]

/-- Along the sync loop, the failed counter grows exactly by the number
of appended results whose `success` flag is false. -/
theorem syncLoop_failed_invariant (jc : JetshopClient) (mapping : MappingConfig)
    (dryRun : Bool) :
    ∀ (products : List Dict) (results : List ProductProcessResult) (counts : Counts)
      (trace : List CallEvent) (results' : List ProductProcessResult) (counts' : Counts)
      (trace' : List CallEvent),
      syncLoop jc mapping dryRun products results counts trace =
        .ok (results', counts', trace') →
      counts'.failed + countFailed results = counts.failed + countFailed results' := by
  intro products
  induction products with
  | nil =>
    intro results counts trace results' counts' trace' h
    rw [syncLoop] at h
    obtain ⟨h1, h2, _⟩ : results = results' ∧ counts = counts' ∧ trace = trace' := by
      simpa using h
    subst h1; subst h2
    rfl
  | cons product rest ih =>
    intro results counts trace results' counts' trace' h
    rw [syncLoop] at h
    cases hget : get_product_no product with
    | error e =>
      rw [hget, except_bind_err] at h
      exact absurd h (by simp)
    | ok v =>
      rw [hget, except_bind_ok] at h
      cases hv : pyTruthy v with
      | false =>
        simp only [hv, Bool.not_false, if_true] at h
        have := ih _ _ _ _ _ _ h
        rw [countFailed_append_one] at this
        simp at this ⊢
        omega
      | true =>
        simp only [hv, Bool.not_true, if_false] at h
        cases hact : (match dictGet product "action" with
            | Value.vStr s => s == "Delete"
            | _ => false) with
        | true =>
          simp only [hact, if_true, except_bind_ok] at h
          cases hdel : handle_delete jc v dryRun with
          | mk r t =>
            rw [hdel] at h
            cases hrs : r.success with
            | true =>
              simp only [hrs, if_true] at h
              have := ih _ _ _ _ _ _ h
              rw [countFailed_append_one, hrs] at this
              simp at this ⊢
              omega
            | false =>
              simp only [hrs, if_false] at h
              have := ih _ _ _ _ _ _ h
              rw [countFailed_append_one, hrs] at this
              simp at this ⊢
              omega
        | false =>
          simp only [hact, if_false] at h
          cases hdel : is_feed_deleted product with
          | error e =>
            rw [hdel, except_bind_err] at h
            exact absurd h (by simp)
          | ok isDel =>
            rw [hdel, except_bind_ok] at h
            cases isDel with
            | true =>
              simp only [if_true] at h
              cases hdel2 : handle_delete jc v dryRun with
              | mk r t =>
                rw [hdel2] at h
                cases hrs : r.success with
                | true =>
                  simp only [hrs, if_true] at h
                  have := ih _ _ _ _ _ _ h
                  rw [countFailed_append_one, hrs] at this
                  simp at this ⊢
                  omega
                | false =>
                  simp only [hrs, if_false] at h
                  have := ih _ _ _ _ _ _ h
                  rw [countFailed_append_one, hrs] at this
                  simp at this ⊢
                  omega
            | false =>
              rw [if_neg (by simp)] at h
              cases hup : handle_update jc mapping product v dryRun with
              | error e =>
                rw [hup, except_bind_err] at h
                exact absurd h (by simp)
              | ok rt =>
                obtain ⟨r, t⟩ := rt
                rw [hup, except_bind_ok] at h
                cases hrs : r.success with
                | false =>
                  simp only [hrs, Bool.not_false, if_true] at h
                  have := ih _ _ _ _ _ _ h
                  rw [countFailed_append_one, hrs] at this
                  simp at this ⊢
                  omega
                | true =>
                  simp only [hrs, Bool.not_true, if_false] at h
                  by_cases hac : r.action = "no_change"
                  · simp only [hac, if_pos rfl] at h
                    have := ih _ _ _ _ _ _ h
                    rw [countFailed_append_one, hrs] at this
                    simp at this ⊢
                    omega
                  · simp only [if_neg hac] at h
                    have := ih _ _ _ _ _ _ h
                    rw [countFailed_append_one, hrs] at this
                    simp at this ⊢
                    omega

/-- C1: for every run of `sync` over any batch, the checkpoint
(`state_store.write_now`, recorded in the returned flag) is advanced if
and only if the number of failed products across the entire batch is
zero: any single product failure — missing product number, failed
delete, skip, read failure or failed update, all of which set
`success = false` — leaves the checkpoint untouched. -/
theorem checkpoint_advances_iff_no_failed_products (fc : FeedClient) (jc : JetshopClient)
    (mapping : MappingConfig) (exportFrom : String) (productNo : Option String)
    (limit : Option Nat) (dryRun : Bool) (report : SyncReport) (advanced : Bool)
    (h : sync fc jc mapping exportFrom productNo limit dryRun = .ok (report, advanced)) :
    advanced = true ↔ countFailed report.products = 0 := by
  unfold sync at h
  cases hloop : syncLoop jc mapping dryRun (fc.fetch_products exportFrom productNo limit) []
      ⟨0, 0, 0, 0, 0, 0⟩ [] with
  | error e =>
    rw [hloop, except_bind_err] at h
    exact absurd h (by simp)
  | ok out =>
    obtain ⟨results, counts, tr⟩ := out
    rw [hloop, except_bind_ok] at h
    have hinv := syncLoop_failed_invariant jc mapping dryRun _ [] ⟨0, 0, 0, 0, 0, 0⟩ []
      results counts tr hloop
    obtain ⟨hrep, hadv⟩ : SyncReport.mk exportFrom dryRun counts results = report ∧
        (counts.failed == 0) = advanced := by simpa using h
    subst hrep; subst hadv
    have hcf : counts.failed = countFailed results := by
      simpa [countFailed] using hinv
    simp [hcf, beq_iff_eq]

/-- Witness for C1: a batch with one product lacking a product number
fails once, and the checkpoint is not advanced. -/
theorem checkpoint_advances_iff_no_failed_products_witness :
    (false = true ↔
      countFailed [⟨.vStr "", "skip", false, ["Missing productNo"], 0, 0⟩] = 0) :=
  checkpoint_advances_iff_no_failed_products missingNoFeed sampleClient sampleMapping "t"
    none none false
    ⟨"t", false, ⟨1, 0, 0, 0, 1, 0⟩, [⟨.vStr "", "skip", false, ["Missing productNo"], 0, 0⟩]⟩
    false rfl

/-- C4 (amended): the dynamic-field save marks the product failed
exactly when some unsuccessful result's message fails
`_is_missing_dynamic_field` — i.e. its lowercased message does NOT
contain both `"no dynamic field"` and `"connected to product"`; results
whose message carries both markers are downgraded to a warning. -/
theorem dyn_failure_iff_some_non_missing_failure (dynResults : List DynamicFieldResult) :
    (dynFailureOutcome dynResults).isSome = true ↔
      ∃ r ∈ dynResults, r.success = false ∧ is_missing_dynamic_field r.message = false := by
  unfold dynFailureOutcome
  by_cases hF : (dynResults.filter (fun r => !r.success)).isEmpty
  · simp only [hF, if_true, Option.isSome_none]
    constructor
    · intro hc; cases hc
    · rintro ⟨r, hr, hs, _⟩
      have : r ∈ dynResults.filter (fun r => !r.success) :=
        List.mem_filter.mpr ⟨hr, by simp [hs]⟩
      rw [List.isEmpty_iff] at hF
      simp [hF] at this
  · simp only [hF, if_false]
    have hcont : ∀ r ∈ dynResults.filter (fun r => !r.success),
        ((dynResults.filter (fun r => !r.success)).filter
            (fun r => is_missing_dynamic_field r.message)).contains r =
          is_missing_dynamic_field r.message := by
      intro r hr
      cases hm : is_missing_dynamic_field r.message with
      | true =>
        have : r ∈ (dynResults.filter (fun r => !r.success)).filter
            (fun r => is_missing_dynamic_field r.message) :=
          List.mem_filter.mpr ⟨hr, hm⟩
        exact List.elem_iff.mpr this
      | false =>
        by_contra hc
        have hc' : r ∈ (dynResults.filter (fun r => !r.success)).filter
            (fun r => is_missing_dynamic_field r.message) :=
          List.elem_iff.mp (by simpa using hc)
        have := (List.mem_filter.mp hc').2
        rw [hm] at this
        cases this
    constructor
    · intro hsome
      by_cases hother : ((dynResults.filter (fun r => !r.success)).filter
          (fun r => !((dynResults.filter (fun r => !r.success)).filter
            (fun r => is_missing_dynamic_field r.message)).contains r)).isEmpty
      · rw [if_pos hother] at hsome
        cases hsome
      · rw [Bool.not_eq_true, List.isEmpty_eq_false_iff_exists_mem] at hother
        obtain ⟨r, hr⟩ := hother
        have hr1 := List.mem_filter.mp hr
        have hr2 := List.mem_filter.mp hr1.1
        refine ⟨r, hr2.1, by simpa using hr2.2, ?_⟩
        have := hr1.2
        rw [hcont r hr1.1] at this
        simpa using this
    · rintro ⟨r, hr, hs, hm⟩
      have hrF : r ∈ dynResults.filter (fun r => !r.success) :=
        List.mem_filter.mpr ⟨hr, by simp [hs]⟩
      have hrO : r ∈ (dynResults.filter (fun r => !r.success)).filter
          (fun r => !((dynResults.filter (fun r => !r.success)).filter
            (fun r => is_missing_dynamic_field r.message)).contains r) :=
        List.mem_filter.mpr ⟨hrF, by rw [hcont r hrF, hm]; rfl⟩
      have hne : ¬((dynResults.filter (fun r => !r.success)).filter
          (fun r => !((dynResults.filter (fun r => !r.success)).filter
            (fun r => is_missing_dynamic_field r.message)).contains r)).isEmpty := by
        rw [List.isEmpty_iff]
        intro hnil
        rw [hnil] at hrO
        cases hrO
      rw [if_neg hne]
      rfl

/-- Every registry transform maps `None` to `None`, so a `None` value
survives the whole transform pipeline. -/
theorem apply_transforms_vNone : ∀ (transforms : List TransformSpec) (context : TransformContext),
    apply_transforms .vNone transforms context = .vNone
  | [], _ => rfl
  | spec :: rest, context => by
    have hstep : apply_transforms .vNone (spec :: rest) context =
        apply_transforms
          (if spec.name = "newline_to_br" then newline_to_br .vNone
           else if spec.name = "format_price" then format_price .vNone
           else if spec.name = "join_list" then join_list .vNone (spec.join_delimiter.getD ", ")
           else if spec.name = "data_register_label" then
             data_register_label .vNone context (spec.join_delimiter.getD ", ")
           else .vNone) rest context := rfl
    have hv : (if spec.name = "newline_to_br" then newline_to_br .vNone
           else if spec.name = "format_price" then format_price .vNone
           else if spec.name = "join_list" then join_list .vNone (spec.join_delimiter.getD ", ")
           else if spec.name = "data_register_label" then
             data_register_label .vNone context (spec.join_delimiter.getD ", ")
           else .vNone) = .vNone := by
      split_ifs <;> rfl
    rw [hstep, hv]
    exact apply_transforms_vNone rest context

/-- C6 (amended): the explicit empty-value substitution applies when the
`attributes` selector finds the attribute object present but its value
removed or empty (`_attribute_value_removed`): a string-typed entry then
resolves to the empty string and a list-typed entry to the empty list,
with no error appended. A genuinely absent source attribute or text —
the selector resolves to nothing at all — instead yields an omission
with no error when the entry is optional, preserve-if-missing or
allow-empty, and otherwise appends a "missing required value" field
error. -/
theorem attribute_absent_or_removed_resolution (entry : FieldMapping) (product : Dict)
    (attrs texts : List (String × Dict)) (mapping : MappingConfig)
    (culture : Option String) (errors : List String) (allowNil : Bool) (src : String)
    (hsrc : select_source entry.sel culture = .ok src) :
    (attribute_value_removed src (resolve_source src product attrs texts).2 = true →
      (entry.type = "string" →
        apply_mapping_entry entry product attrs texts mapping culture errors allowNil =
          .ok (.vStr "", errors)) ∧
      (entry.type = "list" →
        apply_mapping_entry entry product attrs texts mapping culture errors allowNil =
          .ok (.vList [], errors))) ∧
    (resolve_source src product attrs texts = (.vNone, none) →
      ((entry.optional = true ∨ entry.preserve_if_missing = true ∨ entry.allow_empty = true) →
        apply_mapping_entry entry product attrs texts mapping culture errors allowNil =
          .ok (.vNone, errors)) ∧
      (entry.optional = false → entry.preserve_if_missing = false →
        entry.allow_empty = false →
        apply_mapping_entry entry product attrs texts mapping culture errors allowNil =
          .ok (.vNone, errors ++ [entry.target ++ ": missing required value"]))) := by
  constructor
  · intro hrem
    constructor
    · intro ht
      unfold apply_mapping_entry
      rw [hsrc, except_bind_ok]
      rcases hres : resolve_source src product attrs texts with ⟨rv, ao⟩
      rw [hres] at hrem
      simp only at hrem
      have hev : empty_value_for_type entry.type allowNil = .vStr "" := by
        simp [empty_value_for_type, ht]
      simp only [hres, hrem, hev, if_true]
    · intro ht
      unfold apply_mapping_entry
      rw [hsrc, except_bind_ok]
      rcases hres : resolve_source src product attrs texts with ⟨rv, ao⟩
      rw [hres] at hrem
      simp only at hrem
      have hev : empty_value_for_type entry.type allowNil = .vList [] := by
        simp [empty_value_for_type, ht]
      simp only [hres, hrem, hev, if_true]
  · intro hres
    constructor
    · intro hOpt
      unfold apply_mapping_entry
      rw [hsrc, except_bind_ok]
      simp only [hres]
      by_cases hae : entry.allow_empty = true
      · cases culture <;>
          simp [attribute_value_removed, unwrapAttrValue, hae, is_empty, coerce_with_policy,
                apply_transforms_vNone, validate_constraints, except_bind_ok]
      · rw [Bool.not_eq_true] at hae
        have hop : entry.optional = true ∨ entry.preserve_if_missing = true := by
          rcases hOpt with h | h | h
          · exact Or.inl h
          · exact Or.inr h
          · rw [hae] at h; cases h
        rcases hop with h | h <;>
          cases culture <;>
            simp [attribute_value_removed, unwrapAttrValue, hae, is_empty, h]
    · intro hopt hpres hae
      unfold apply_mapping_entry
      rw [hsrc, except_bind_ok]
      simp only [hres]
      cases culture <;>
        simp [attribute_value_removed, unwrapAttrValue, hae, is_empty, hopt, hpres]

/-- Witness for the amended C6, exercising all three behaviors: the
present-but-valueless attribute substitutes `""`; a genuinely absent
attribute is omitted without error for an optional entry and errors for
a required one. -/
theorem attribute_absent_or_removed_resolution_witness :
    apply_mapping_entry requiredNameEntry removedValueProduct removedValueAttrs []
        skipMapping (some "sv-SE") [] false = .ok (.vStr "", []) ∧
    apply_mapping_entry optionalNameEntry bareProduct [] [] skipMapping (some "sv-SE") []
        false = .ok (.vNone, []) ∧
    apply_mapping_entry requiredNameEntry bareProduct [] [] skipMapping (some "sv-SE") []
        false = .ok (.vNone, ["Name: missing required value"]) :=
  ⟨((attribute_absent_or_removed_resolution requiredNameEntry removedValueProduct
      removedValueAttrs [] skipMapping (some "sv-SE") [] false "attributes[x]" rfl).1 rfl).1 rfl,
   ((attribute_absent_or_removed_resolution optionalNameEntry bareProduct [] [] skipMapping
      (some "sv-SE") [] false "attributes[x]" rfl).2 rfl).1 (Or.inl rfl),
   ((attribute_absent_or_removed_resolution requiredNameEntry bareProduct [] [] skipMapping
      (some "sv-SE") [] false "attributes[x]" rfl).2 rfl).2 rfl rfl rfl⟩

end FeedJetshop
